import Mathlib

/-!
# Verification of the referral/cashback settlement engine

Shallow embedding of the referral attribution and reward settlement engine
(services `rewards.server.ts`, `refunds.server.ts`, `referrals.server.ts`,
`referrers.server.ts`, `codes.server.ts`, `settings.server.ts`,
`shopifyAdmin.server.ts` and the `webhooks.orders.paid.ts` route).

Monetary amounts are modelled as rationals, timestamps as naturals, database
rows as lists of records inside a `Store`, and the external commerce platform
(order totals, transaction lists, refund-mutation responses) as explicit
environment inputs.  Prisma `undefined` fields ("leave unchanged" in updates,
"not set" in creates) are modelled with `Option`, and the JavaScript `??`
operator with `jsOr`.
-/

set_option maxRecDepth 4000

/-- JS `a ?? b` on nullable values. -/
def jsOr {α : Type} (a b : Option α) : Option α :=
  match a with
  | some x => some x
  | none => b

/-- First list element satisfying a decidable predicate (Prisma `findFirst` /
`findUnique` over a where-clause). -/
def firstWhere {α : Type} (p : α → Prop) [DecidablePred p] : List α → Option α
  | [] => none
  | a :: l => if p a then some a else firstWhere p l

instance {ε α : Type} [DecidableEq ε] [DecidableEq α] : DecidableEq (Except ε α) := fun a b =>
  match a, b with
  | Except.error e, Except.error f =>
    if h : e = f then isTrue (by rw [h]) else
      isFalse (fun hh => by injection hh with hef; exact h hef)
  | Except.error _, Except.ok _ => isFalse (fun hh => Except.noConfusion hh)
  | Except.ok _, Except.error _ => isFalse (fun hh => Except.noConfusion hh)
  | Except.ok x, Except.ok y =>
    if h : x = y then isTrue (by rw [h]) else
      isFalse (fun hh => by injection hh with hxy; exact h hxy)

/-- Reward lifecycle states (`RewardStatus` enum). -/
inductive RewardStatus where
  | PENDING
  | PAID
  | FAILED
deriving DecidableEq, Repr

/-- `ReferralSettings` as returned by `getReferralSettings`. -/
structure ReferralSettings where
  discountPercentage : ℚ
  cashbackAmount : ℚ
  codeValidityDays : ℕ
  appliesOncePerCustomer : Bool
  maxUsagePerCode : ℕ
  maxRefundPercentage : ℚ
  customerSegmentIds : List String
deriving DecidableEq, Repr

/-- A `Referrer` row. -/
structure Referrer where
  id : String
  shopifyCustomerId : String
  email : Option String
  firstName : Option String
  lastName : Option String
  createdAt : ℕ
  updatedAt : ℕ
deriving DecidableEq, Repr

/-- A `Code` row. -/
structure Code where
  id : String
  referrerId : String
  code : String
  shopifyDiscountId : Option String
  usageCount : ℕ
  maxUsage : ℕ
  expiresAt : Option ℕ
  originOrderId : Option String
  originOrderGid : Option String
  workshopProductId : Option String
  workshopProductTitle : Option String
  workshopQuantity : ℕ
  discountSnapshot : ℚ
  cashbackSnapshot : ℚ
  createdAt : ℕ
deriving DecidableEq, Repr

/-- A `Referral` row. -/
structure Referral where
  id : String
  referrerId : String
  codeId : Option String
  refereeShopifyCustomerId : Option String
  refereeEmail : Option String
  refereeFirstName : Option String
  refereeLastName : Option String
  orderId : Option String
  workshopProductId : Option String
  workshopProductTitle : Option String
deriving DecidableEq, Repr

/-- A `Reward` row. -/
structure Reward where
  id : String
  referrerId : String
  referralId : Option String
  amount : ℚ
  currency : String
  status : RewardStatus
  paidAt : Option ℕ
  workshopProductId : Option String
  workshopProductTitle : Option String
  createdAt : ℕ
deriving DecidableEq, Repr

/-- The persisted state: the five entity tables plus the settings singleton. -/
structure Store where
  referrers : List Referrer
  codes : List Code
  referrals : List Referral
  rewards : List Reward
  settings : ReferralSettings
deriving DecidableEq, Repr

/-! ## Settings provider (`settings.server.ts`) -/

/-- A partial settings update as accepted by `updateReferralSettings`
(`Partial<ReferralSettings>`: `undefined` fields keep the existing value). -/
structure SettingsPatch where
  discountPercentage : Option ℚ := none
  cashbackAmount : Option ℚ := none
  codeValidityDays : Option ℕ := none
  appliesOncePerCustomer : Option Bool := none
  maxUsagePerCode : Option ℕ := none
  maxRefundPercentage : Option ℚ := none
  customerSegmentIds : Option (List String) := none
deriving DecidableEq, Repr

/-- `updateReferralSettings`: merge the patch over the existing settings and
persist the result; returns the new settings. -/
def updateReferralSettings (s : Store) (p : SettingsPatch) : Store × ReferralSettings :=
  let existing := s.settings
  let next : ReferralSettings := {
    discountPercentage := p.discountPercentage.getD existing.discountPercentage
    cashbackAmount := p.cashbackAmount.getD existing.cashbackAmount
    codeValidityDays := p.codeValidityDays.getD existing.codeValidityDays
    appliesOncePerCustomer := p.appliesOncePerCustomer.getD existing.appliesOncePerCustomer
    maxUsagePerCode := p.maxUsagePerCode.getD existing.maxUsagePerCode
    maxRefundPercentage := p.maxRefundPercentage.getD existing.maxRefundPercentage
    customerSegmentIds := p.customerSegmentIds.getD existing.customerSegmentIds }
  ({ s with settings := next }, next)

/-! ## Reward ledger (`rewards.server.ts`) -/

/-- `prisma.reward.findUnique({ where: { id } })`. -/
def findRewardFull (s : Store) (rewardId : String) : Option Reward :=
  firstWhere (fun r => r.id = rewardId) s.rewards

/-- `prisma.referral` lookup by id (relation resolution). -/
def findReferralById (s : Store) (referralId : String) : Option Referral :=
  firstWhere (fun r => r.id = referralId) s.referrals

/-- `prisma.code` lookup by id (relation resolution). -/
def findCodeById (s : Store) (codeId : String) : Option Code :=
  firstWhere (fun c => c.id = codeId) s.codes

/-- `createPendingReward`: insert one reward row in `PENDING` status with
`amount = settings.cashbackAmount` at time of call. -/
def createPendingReward (s : Store) (newId : String) (referrerId : String)
    (referralId : Option String) (settings : ReferralSettings) (currency : String)
    (workshopProductId workshopProductTitle : Option String) (now : ℕ) :
    Store × Reward :=
  let r : Reward := {
    id := newId
    referrerId := referrerId
    referralId := referralId
    amount := settings.cashbackAmount
    currency := currency
    status := RewardStatus.PENDING
    paidAt := none
    workshopProductId := workshopProductId
    workshopProductTitle := workshopProductTitle
    createdAt := now }
  ({ s with rewards := s.rewards ++ [r] }, r)

/-- `markRewardAsPaid`: `prisma.reward.update({ where: { id: rewardId },
data: { status: PAID, paidAt: new Date() } })` — an update keyed on id only,
with no condition on the current status. -/
def markRewardAsPaid (s : Store) (rewardId : String) (now : ℕ) : Store :=
  { s with rewards := s.rewards.map (fun r =>
      if r.id = rewardId then { r with status := RewardStatus.PAID, paidAt := some now } else r) }

/-- `getTotalRefundedForCode`: sum of `PAID` reward amounts whose referral's
code shares the given `originOrderGid`. -/
def getTotalRefundedForCode (s : Store) (originOrderGid : String) : ℚ :=
  let codeIds := (s.codes.filter (fun c => decide (c.originOrderGid = some originOrderGid))).map (·.id)
  (((s.rewards.filter (fun r => decide (r.status = RewardStatus.PAID) &&
      decide ((r.referralId.bind (findReferralById s)).bind (fun ref => ref.codeId) ∈
        codeIds.map some))).map (·.amount)).sum)

/-! ## Shopify admin queries (`shopifyAdmin.server.ts`) -/

/-- One entry of an order's transaction list. -/
structure Transaction where
  id : String
  kind : String
  status : String
deriving DecidableEq, Repr

/-- The predicate of `getOrderTransactionParentId`: a `CAPTURE` or `SALE`
transaction with status `SUCCESS`. -/
def isValidTransaction (t : Transaction) : Prop :=
  (t.kind = "CAPTURE" ∨ t.kind = "SALE") ∧ t.status = "SUCCESS"

instance (t : Transaction) : Decidable (isValidTransaction t) := by
  unfold isValidTransaction; infer_instance

/-- `getOrderTransactionParentId`: succeeds with the first successful
capturable transaction's id, else the first listed transaction's id, else
`null`; a failed query (`none` input) yields `null`. -/
def getOrderTransactionParentId (resp : Option (List Transaction)) : Option String :=
  match resp with
  | none => none
  | some transactions =>
    match firstWhere isValidTransaction transactions with
    | some t => some t.id
    | none => jsOr (transactions.head?.map (·.id)) none

/-- The ceiling computation of `processRewardRefund`:
`orderTotalAmount ? orderTotalAmount * settings.maxRefundPercentage : null`.
A missing total or a (JS-falsy) total of `0` yields no ceiling. -/
def maxRefundAllowedOf (orderTotalAmount : Option ℚ) (maxRefundPercentage : ℚ) : Option ℚ :=
  match orderTotalAmount with
  | none => none
  | some t => if t = 0 then none else some (t * maxRefundPercentage)

/-! ## Refund execution (`refunds.server.ts`) -/

/-- Outcome of one `callAdminGraphql` attempt of the `refundCreate` mutation,
as discriminated by `createReferralRefund`. -/
inductive AttemptResponse where
  | graphqlErrors
  | noPayload
  | userErrorsUnavailable
  | userErrorsOther
  | success
deriving DecidableEq, Repr

/-- The distinct throw sites of `createReferralRefund`. -/
inductive RefundCallError where
  | graphqlRequestFailed
  | unexpectedResponse
  | shopifyUserErrors
  | retriesExhausted
deriving DecidableEq, Repr

/-- `maxRetries` of the refund retry loop. -/
def maxRetries : ℕ := 3

/-- The retry loop body of `createReferralRefund`: attempt indices start at 0;
a `userErrors` response flagged "order temporarily unavailable" is retried
while `attempt < maxRetries - 1`, every other failure throws immediately. -/
def refundLoopGo (responses : ℕ → AttemptResponse) (attempt : ℕ) :
    (fuel : ℕ) → Except RefundCallError Unit
  | 0 => Except.error RefundCallError.retriesExhausted
  | fuel + 1 =>
    match responses attempt with
    | AttemptResponse.graphqlErrors => Except.error RefundCallError.graphqlRequestFailed
    | AttemptResponse.noPayload => Except.error RefundCallError.unexpectedResponse
    | AttemptResponse.userErrorsUnavailable =>
        if attempt < maxRetries - 1 then refundLoopGo responses (attempt + 1) fuel
        else Except.error RefundCallError.shopifyUserErrors
    | AttemptResponse.userErrorsOther => Except.error RefundCallError.shopifyUserErrors
    | AttemptResponse.success => Except.ok ()

/-- Result of the whole retry loop of `createReferralRefund`. -/
def refundCallResult (responses : ℕ → AttemptResponse) : Except RefundCallError Unit :=
  refundLoopGo responses 0 maxRetries

/-- One element of the `transactions` array of the `refundCreate` input. -/
structure RefundTransactionInput where
  orderId : String
  amount : ℚ
  kind : String
  parentId : Option String
  gateway : Option String
deriving DecidableEq, Repr

/-- The `refundCreate` mutation input built by `createReferralRefund`. -/
structure RefundVariables where
  note : String
  orderId : String
  transactions : List RefundTransactionInput
deriving DecidableEq, Repr

/-- `DEFAULT_REFUND_NOTE`. -/
def DEFAULT_REFUND_NOTE : String := "Remboursement automatique - Parrainage"

/-- `SHOPIFY_REFUND_GATEWAY ?? "store-credit"` (modelled with the default). -/
def REFUND_GATEWAY : String := "store-credit"

/-- The store-credit fallback input (`!parentId` branch). -/
def storeCreditVariables (orderGid : String) (amount : ℚ) (note : Option String) :
    RefundVariables :=
  { note := note.getD DEFAULT_REFUND_NOTE
    orderId := orderGid
    transactions := [{ orderId := orderGid, amount := amount, kind := "REFUND",
                       parentId := none, gateway := some REFUND_GATEWAY }] }

/-- The direct-refund input attached to the parent transaction. -/
def parentTransactionVariables (orderGid : String) (amount : ℚ) (note : Option String)
    (parentId : String) : RefundVariables :=
  { note := note.getD DEFAULT_REFUND_NOTE
    orderId := orderGid
    transactions := [{ orderId := orderGid, amount := amount, kind := "REFUND",
                       parentId := some parentId, gateway := none }] }

/-- Input construction of `createReferralRefund`: fall back to store credit
exactly when `getOrderTransactionParentId` produced no id. -/
def buildRefundVariables (orderGid : String) (amount : ℚ) (note : Option String)
    (parentId : Option String) : RefundVariables :=
  match parentId with
  | none => storeCreditVariables orderGid amount note
  | some p => parentTransactionVariables orderGid amount note p

/-- `createReferralRefund`: resolve the parent transaction for the order,
build the mutation input, run the bounded retry loop.  Returns the input sent
to the external system and the loop's outcome. -/
def createReferralRefund (orderGid : String) (amount : ℚ) (note : Option String)
    (transactionsResp : Option (List Transaction)) (responses : ℕ → AttemptResponse) :
    RefundVariables × Except RefundCallError Unit :=
  (buildRefundVariables orderGid amount note (getOrderTransactionParentId transactionsResp),
   refundCallResult responses)

/-! ## Refund settlement engine (`processRewardRefund` in `rewards.server.ts`) -/

/-- The throw sites of `processRewardRefund`. -/
inductive SettleError where
  | rewardNotFound
  | invalidState
  | noOrderAvailable
  | refundCeilingExceeded (refundLeft : ℚ)
  | refundFailed (e : RefundCallError)
deriving DecidableEq, Repr

/-- `ProcessRewardRefundResult`. -/
structure ProcessRewardRefundResult where
  rewardId : String
  totalRefunded : ℚ
  maxRefundAllowed : Option ℚ
deriving DecidableEq, Repr

/-- External inputs consumed by one settlement call: the order's total from
`getOrderTotalAmount`, the order's transaction list (or a failed query), the
per-attempt responses of the `refundCreate` mutation, and the clock. -/
structure SettleEnv where
  orderTotal : Option ℚ
  transactions : Option (List Transaction)
  responses : ℕ → AttemptResponse
  now : ℕ

/-- Result of one settlement call: the value or error returned, the committed
store, and the refund-mutation inputs issued to the external system. -/
structure SettleOutcome where
  result : Except SettleError ProcessRewardRefundResult
  store : Store
  refundCalls : List RefundVariables

/-- `extractNumericId`: last `/`-separated segment of a gid, or the gid. -/
def extractNumericId (gid : String) : String :=
  let segments := gid.splitOn "/"
  match segments.getLast? with
  | some last => if last = "" then gid else last
  | none => gid

/-- `reward.referral?.code`: the code linked through the reward's referral. -/
def rewardCode (s : Store) (reward : Reward) : Option Code :=
  (reward.referralId.bind (findReferralById s)).bind (fun ref => ref.codeId.bind (findCodeById s))

/-- `orderGidOverride ?? reward.referral?.code?.originOrderGid`. -/
def resolveOrderGid (s : Store) (reward : Reward) (orderGidOverride : Option String) :
    Option String :=
  jsOr orderGidOverride ((rewardCode s reward).bind (fun c => c.originOrderGid))

/-- JS falsiness of a nullable string (`null`, `undefined` or `""`). -/
def strFalsy : Option String → Prop
  | none => True
  | some s => s = ""

instance (o : Option String) : Decidable (strFalsy o) := by
  unfold strFalsy; cases o <;> infer_instance

/-- The backfill write of `processRewardRefund`: store the override onto the
code when the code carried no origin order. -/
def backfillCode (s : Store) (codeId : String) (overrideGid : String) : Store :=
  { s with codes := s.codes.map (fun c =>
      if c.id = codeId then
        { c with originOrderGid := some overrideGid,
                 originOrderId := some (extractNumericId overrideGid) }
      else c) }

/-- Steps guarded by `orderGidOverride && reward.referral?.code &&
!reward.referral.code.originOrderGid`. -/
def applyOverrideBackfill (s : Store) (reward : Reward) (orderGidOverride : Option String) :
    Store :=
  match orderGidOverride with
  | none => s
  | some ov =>
    if ov = "" then s
    else
      match rewardCode s reward with
      | none => s
      | some c => if strFalsy c.originOrderGid then backfillCode s c.id ov else s

/-- The refund call and terminal commit of `processRewardRefund` (steps after
the ceiling check): call `createReferralRefund`, and on success
`markRewardAsPaid` (the confirmation email is best-effort and does not touch
the store). -/
def settleRefund (s1 : Store) (env : SettleEnv) (reward : Reward) (orderGid : String)
    (totalRefundedBefore : ℚ) (maxRefundAllowed : Option ℚ) : SettleOutcome :=
  match (createReferralRefund orderGid reward.amount
      (some "Remboursement manuel - Parrainage") env.transactions env.responses).2 with
  | Except.error e =>
      { result := Except.error (SettleError.refundFailed e), store := s1,
        refundCalls := [(createReferralRefund orderGid reward.amount
          (some "Remboursement manuel - Parrainage") env.transactions env.responses).1] }
  | Except.ok _ =>
      { result := Except.ok { rewardId := reward.id,
                              totalRefunded := totalRefundedBefore + reward.amount,
                              maxRefundAllowed := maxRefundAllowed }
        store := markRewardAsPaid s1 reward.id env.now
        refundCalls := [(createReferralRefund orderGid reward.amount
          (some "Remboursement manuel - Parrainage") env.transactions env.responses).1] }

/-- The ceiling phase of `processRewardRefund` (after the order gid is
resolved and the backfill applied). -/
def settleWithGid (s1 : Store) (env : SettleEnv) (reward : Reward) (orderGid : String) :
    SettleOutcome :=
  match maxRefundAllowedOf env.orderTotal s1.settings.maxRefundPercentage with
  | some m =>
    if getTotalRefundedForCode s1 orderGid + reward.amount > m then
      { result := Except.error (SettleError.refundCeilingExceeded
          (max 0 (m - getTotalRefundedForCode s1 orderGid)))
        store := s1, refundCalls := [] }
    else settleRefund s1 env reward orderGid (getTotalRefundedForCode s1 orderGid) (some m)
  | none => settleRefund s1 env reward orderGid (getTotalRefundedForCode s1 orderGid) none

/-- `processRewardRefund` after the status check: resolve the order gid,
reject when none, backfill the override, then enforce the ceiling and refund. -/
def settleAfterStatus (s : Store) (env : SettleEnv) (reward : Reward)
    (orderGidOverride : Option String) : SettleOutcome :=
  match resolveOrderGid s reward orderGidOverride with
  | none => { result := Except.error SettleError.noOrderAvailable, store := s, refundCalls := [] }
  | some g =>
    if g = "" then
      { result := Except.error SettleError.noOrderAvailable, store := s, refundCalls := [] }
    else
      settleWithGid (applyOverrideBackfill s reward orderGidOverride) env reward g

/-- `processRewardRefund`. -/
def processRewardRefund (s : Store) (env : SettleEnv) (rewardId : String)
    (orderGidOverride : Option String) : SettleOutcome :=
  match findRewardFull s rewardId with
  | none => { result := Except.error SettleError.rewardNotFound, store := s, refundCalls := [] }
  | some reward =>
    if reward.status ≠ RewardStatus.PENDING then
      { result := Except.error SettleError.invalidState, store := s, refundCalls := [] }
    else settleAfterStatus s env reward orderGidOverride

/-! ## Referrer registry (`referrers.server.ts`) -/

/-- The `customer` object of a purchase-paid webhook payload. -/
structure CustomerPayload where
  id : String
  email : Option String
  first_name : Option String
  last_name : Option String
deriving DecidableEq, Repr

/-- The `needUpdate` test of `getOrCreateReferrerFromCustomer`. -/
def referrerNeedsUpdate (existing : Referrer) (customer : CustomerPayload) : Prop :=
  existing.email ≠ customer.email ∨ existing.firstName ≠ customer.first_name ∨
    existing.lastName ≠ customer.last_name

instance (e : Referrer) (c : CustomerPayload) : Decidable (referrerNeedsUpdate e c) := by
  unfold referrerNeedsUpdate; infer_instance

/-- The contact refresh applied when `needUpdate` holds: each field takes the
incoming value only when it is non-null (`customer.x ?? existing.x`); the
`updatedAt` timestamp is bumped by the write. -/
def refreshedReferrer (existing : Referrer) (customer : CustomerPayload) (now : ℕ) : Referrer :=
  { existing with
    email := jsOr customer.email existing.email
    firstName := jsOr customer.first_name existing.firstName
    lastName := jsOr customer.last_name existing.lastName
    updatedAt := now }

/-- `getOrCreateReferrerFromCustomer`: find by external customer id; update
drifted contact fields, else return unchanged; create when absent. -/
def getOrCreateReferrerFromCustomer (s : Store) (newId : String) (customer : CustomerPayload)
    (now : ℕ) : Store × Referrer :=
  match firstWhere (fun r => r.shopifyCustomerId = customer.id) s.referrers with
  | some existing =>
    if referrerNeedsUpdate existing customer then
      let updated := refreshedReferrer existing customer now
      ({ s with referrers := s.referrers.map (fun r => if r.id = existing.id then updated else r) },
       updated)
    else (s, existing)
  | none =>
    let created : Referrer := {
      id := newId
      shopifyCustomerId := customer.id
      email := customer.email
      firstName := customer.first_name
      lastName := customer.last_name
      createdAt := now
      updatedAt := now }
    ({ s with referrers := s.referrers ++ [created] }, created)

/-! ## Code issuer (`codes.server.ts`) -/

/-- `computeExpiryDate`: `now + codeValidityDays`, or `null` when the validity
window is zero (modelled with day-granularity timestamps). -/
def computeExpiryDate (codeValidityDays : ℕ) (now : ℕ) : Option ℕ :=
  if codeValidityDays ≤ 0 then none else some (now + codeValidityDays)

/-- Membership test of the code-string uniqueness constraint. -/
def codeValueExists (s : Store) (value : String) : Prop :=
  (firstWhere (fun c => c.code = value) s.codes).isSome

instance (s : Store) (v : String) : Decidable (codeValueExists s v) := by
  unfold codeValueExists; infer_instance

/-- The collision-retry loop of `createCodeForReferrer`: candidates 0..4 are
checked in order against the uniqueness constraint; all five colliding is the
`CodeGenerationExhausted` failure. -/
def pickFreeCode (s : Store) (candidates : ℕ → String) : Option String :=
  (List.range 5).findSome? (fun i =>
    if codeValueExists s (candidates i) then none else some (candidates i))

/-- `createCodeForReferrer` (persistence part): mint a code with snapshots of
the supplied settings and the supplied origin/product metadata.  `none` models
the thrown generation-exhausted error; the promo email is best-effort and does
not touch the store. -/
def createCodeForReferrer (s : Store) (candidates : ℕ → String) (newId : String) (now : ℕ)
    (referrerId : String) (settings : ReferralSettings)
    (originOrderId originOrderGid workshopProductId workshopProductTitle : Option String)
    (workshopQuantity : ℕ) : Option (Store × Code) :=
  match pickFreeCode s candidates with
  | none => none
  | some value =>
    let c : Code := {
      id := newId
      referrerId := referrerId
      code := value
      shopifyDiscountId := none
      usageCount := 0
      maxUsage := settings.maxUsagePerCode
      expiresAt := computeExpiryDate settings.codeValidityDays now
      originOrderId := originOrderId
      originOrderGid := originOrderGid
      workshopProductId := workshopProductId
      workshopProductTitle := workshopProductTitle
      workshopQuantity := workshopQuantity
      discountSnapshot := settings.discountPercentage
      cashbackSnapshot := settings.cashbackAmount
      createdAt := now }
    some ({ s with codes := s.codes ++ [c] }, c)

/-- `markCodeAsUsed`: increment the usage counter. -/
def markCodeAsUsed (s : Store) (codeId : String) : Store :=
  { s with codes := s.codes.map (fun c =>
      if c.id = codeId then { c with usageCount := c.usageCount + 1 } else c) }

/-- `findCodeByValue`. -/
def findCodeByValue (s : Store) (value : String) : Option Code :=
  firstWhere (fun c => c.code = value) s.codes

/-- `linkShopifyDiscountId`. -/
def linkShopifyDiscountId (s : Store) (codeId : String) (discountId : String) : Store :=
  { s with codes := s.codes.map (fun c =>
      if c.id = codeId then { c with shopifyDiscountId := some discountId } else c) }

/-- `findCodeByOriginOrderId`. -/
def findCodeByOriginOrderId (s : Store) (originOrderId : String) : Option Code :=
  firstWhere (fun c => c.originOrderId = some originOrderId) s.codes

/-- `prisma.code.findFirst({ where: { referrerId }, orderBy: { createdAt:
"desc" } })`: the referrer's most recently created code. -/
def latestCodeForReferrer (s : Store) (referrerId : String) : Option Code :=
  (s.codes.filter (fun c => decide (c.referrerId = referrerId))).foldl
    (fun acc c => match acc with
      | none => some c
      | some b => if c.createdAt > b.createdAt then some c else some b) none

/-! ## Referral recorder (`referrals.server.ts`) -/

/-- `ReferralInput`. -/
structure ReferralInput where
  referrerId : String
  codeId : Option String := none
  refereeShopifyCustomerId : Option String := none
  refereeEmail : Option String := none
  refereeFirstName : Option String := none
  refereeLastName : Option String := none
  orderId : Option String := none
  workshopProductId : Option String := none
  workshopProductTitle : Option String := none
deriving DecidableEq, Repr

/-- The row built from a `ReferralInput` (create path). -/
def mkReferral (newId : String) (input : ReferralInput) : Referral :=
  { id := newId
    referrerId := input.referrerId
    codeId := input.codeId
    refereeShopifyCustomerId := input.refereeShopifyCustomerId
    refereeEmail := input.refereeEmail
    refereeFirstName := input.refereeFirstName
    refereeLastName := input.refereeLastName
    orderId := input.orderId
    workshopProductId := input.workshopProductId
    workshopProductTitle := input.workshopProductTitle }

/-- The upsert's update path: `undefined` input fields (mapped from `null` by
`?? undefined`) leave the stored value unchanged; present fields overwrite. -/
def applyReferralUpdate (old : Referral) (input : ReferralInput) : Referral :=
  { old with
    referrerId := input.referrerId
    codeId := jsOr input.codeId old.codeId
    refereeShopifyCustomerId := jsOr input.refereeShopifyCustomerId old.refereeShopifyCustomerId
    refereeEmail := jsOr input.refereeEmail old.refereeEmail
    refereeFirstName := jsOr input.refereeFirstName old.refereeFirstName
    refereeLastName := jsOr input.refereeLastName old.refereeLastName
    orderId := jsOr input.orderId old.orderId
    workshopProductId := jsOr input.workshopProductId old.workshopProductId
    workshopProductTitle := jsOr input.workshopProductTitle old.workshopProductTitle }

/-- `findReferralByOrderId`. -/
def findReferralByOrderId (s : Store) (orderId : String) : Option Referral :=
  firstWhere (fun r => r.orderId = some orderId) s.referrals

/-- `createReferral`: with a truthy `orderId`, a `prisma.referral.upsert`
keyed on the unique `orderId` — updating the existing row in place when one
exists, inserting otherwise; without one, a plain create. -/
def createReferral (s : Store) (newId : String) (input : ReferralInput) : Store × Referral :=
  match input.orderId with
  | some oid =>
    if oid = "" then
      let r := mkReferral newId input
      ({ s with referrals := s.referrals ++ [r] }, r)
    else
      match firstWhere (fun r => r.orderId = some oid) s.referrals with
      | some old =>
        let updated := applyReferralUpdate old input
        ({ s with referrals := s.referrals.map (fun r => if r.id = old.id then updated else r) },
         updated)
      | none =>
        let r := mkReferral newId input
        ({ s with referrals := s.referrals ++ [r] }, r)
  | none =>
    let r := mkReferral newId input
    ({ s with referrals := s.referrals ++ [r] }, r)

/-! ## Purchase event handler (`webhooks.orders.paid.ts`) -/

/-- The webhook payload fields the handler reads. -/
structure OrdersPaidPayload where
  id : Option String
  admin_graphql_api_id : Option String
  email : Option String
  currency : Option String
  discount_codes : List (Option String)
  customer : Option CustomerPayload
deriving DecidableEq, Repr

/-- External inputs of one webhook run: the workshop attribution extracted
from the best-effort order-detail fetch, fresh row ids, code candidates for
the uniqueness loop, the discount-sync outcome, and the clock. -/
structure WebhookEnv where
  workshopProductId : Option String
  workshopProductTitle : Option String
  workshopQuantity : ℕ
  newReferrerId : String
  newCodeId : String
  codeCandidates : ℕ → String
  newReferralId : String
  newRewardId : String
  discountSync : Option String
  now : ℕ

/-- Whitespace predicate of `trim`. -/
def isSpaceChar (c : Char) : Bool :=
  c = ' ' || c = '\t' || c = '\n' || c = '\r'

/-- `code.trim()`: strip leading and trailing whitespace. -/
def strTrim (s : String) : String :=
  String.mk (((s.data.dropWhile isSpaceChar).reverse.dropWhile isSpaceChar).reverse)

/-- `normalizeCode`: trim and reject blank codes. -/
def normalizeCode (code : Option String) : Option String :=
  match code with
  | none => none
  | some c => if strTrim c = "" then none else some (strTrim c)

/-- The in-place refresh applied to an existing code on a repeat purchase
(`prisma.code.update` in the webhook): origin order id overwritten
unconditionally, gid and workshop metadata overwritten when the new event
carries them, expiry/max-usage/snapshots reset to current settings. -/
def refreshCodeRecord (old : Code) (settings : ReferralSettings) (env : WebhookEnv)
    (p : OrdersPaidPayload) (oid : String) : Code :=
  { old with
    originOrderId := some oid
    originOrderGid := jsOr p.admin_graphql_api_id old.originOrderGid
    workshopProductId := jsOr env.workshopProductId old.workshopProductId
    workshopProductTitle := jsOr env.workshopProductTitle old.workshopProductTitle
    workshopQuantity := env.workshopQuantity
    expiresAt := computeExpiryDate settings.codeValidityDays env.now
    maxUsage := settings.maxUsagePerCode
    discountSnapshot := settings.discountPercentage
    cashbackSnapshot := settings.cashbackAmount }

/-- Webhook lines 94-174: resolve the code to use (by origin order, else the
referrer's latest), mint one if none, else refresh the existing one in place;
then best-effort discount sync and linking.  `none` models the caught
code-generation failure, which aborts the rest of the handler. -/
def webhookCodeStage (s : Store) (settings : ReferralSettings) (env : WebhookEnv)
    (p : OrdersPaidPayload) (oid : String) (referrer : Referrer) : Option Store :=
  match jsOr (findCodeByOriginOrderId s oid) (latestCodeForReferrer s referrer.id) with
  | none =>
    match createCodeForReferrer s env.codeCandidates env.newCodeId env.now referrer.id settings
        (some oid) p.admin_graphql_api_id env.workshopProductId env.workshopProductTitle
        env.workshopQuantity with
    | none => none
    | some (s1, c) =>
      match env.discountSync with
      | some did => some (linkShopifyDiscountId s1 c.id did)
      | none => some s1
  | some old =>
    let updated := refreshCodeRecord old settings env p oid
    let s1 := { s with codes := s.codes.map (fun c => if c.id = old.id then updated else c) }
    match env.discountSync with
    | some did => some (linkShopifyDiscountId s1 old.id did)
    | none => some s1

/-- Webhook lines 176-225: when the order used a referral code that resolves,
and no referral exists yet for this order id, record the referral, create the
pending reward, and increment the code's usage counter. -/
def webhookReferralStage (s : Store) (settings : ReferralSettings) (env : WebhookEnv)
    (p : OrdersPaidPayload) (cust : CustomerPayload) (oid : String) : Store :=
  match normalizeCode (p.discount_codes.head?.bind id) with
  | none => s
  | some usedDiscount =>
    match findCodeByValue s usedDiscount with
    | none => s
    | some usedCodeRecord =>
      match findReferralByOrderId s oid with
      | some _ => s
      | none =>
        let step := createReferral s env.newReferralId {
          referrerId := usedCodeRecord.referrerId
          codeId := some usedCodeRecord.id
          refereeShopifyCustomerId := some cust.id
          refereeEmail := jsOr p.email cust.email
          refereeFirstName := cust.first_name
          refereeLastName := cust.last_name
          orderId := some oid
          workshopProductId := env.workshopProductId
          workshopProductTitle := env.workshopProductTitle }
        let step2 := createPendingReward step.1 env.newRewardId usedCodeRecord.referrerId
          (some step.2.id) settings (p.currency.getD "EUR") env.workshopProductId
          env.workshopProductTitle env.now
        markCodeAsUsed step2.1 usedCodeRecord.id

/-- The `orders/paid` webhook action: precondition check, referrer upsert,
code issue-or-refresh, then referral/reward recording; every run acknowledges
success, and a thrown code-generation error is caught, committing the state
reached so far. -/
def webhookOrdersPaid (s : Store) (env : WebhookEnv) (p : OrdersPaidPayload) : Store :=
  match p.id, p.customer with
  | some oid, some cust =>
    if oid = "" ∨ cust.id = "" then s
    else
      let settings := s.settings
      let stepA := getOrCreateReferrerFromCustomer s env.newReferrerId cust env.now
      match webhookCodeStage stepA.1 settings env p oid stepA.2 with
      | none => stepA.1
      | some sB => webhookReferralStage sB settings env p cust oid
  | _, _ => s

/-- Number of referral rows recorded for one source order id. -/
def countReferralsForOrder (s : Store) (orderId : String) : ℕ :=
  (s.referrals.filter (fun r => decide (r.orderId = some orderId))).length

/-! ## Concrete fixtures used by witnesses and counterexamples -/

/-- Baseline settings: 10 % referee discount, 20 cashback, 30-day codes,
refund ceiling at half the order value. -/
def baseSettings : ReferralSettings :=
  { discountPercentage := 1/10
    cashbackAmount := 20
    codeValidityDays := 30
    appliesOncePerCustomer := true
    maxUsagePerCode := 0
    maxRefundPercentage := 1/2
    customerSegmentIds := [] }

/-- A referrer on record. -/
def referrerAnn : Referrer :=
  { id := "ref1", shopifyCustomerId := "cust1", email := some "ann@example.com",
    firstName := some "Ann", lastName := some "Lee", createdAt := 0, updatedAt := 0 }

/-- The origin-order gid shared by the ceiling fixtures. -/
def ORDER_GID : String := "gid://shopify/Order/100"

/-- Ann's code, minted from order 100. -/
def codeC1 : Code :=
  { id := "c1", referrerId := "ref1", code := "ABC-1234", shopifyDiscountId := none,
    usageCount := 2, maxUsage := 0, expiresAt := none,
    originOrderId := some "100", originOrderGid := some ORDER_GID,
    workshopProductId := none, workshopProductTitle := none, workshopQuantity := 1,
    discountSnapshot := 1/10, cashbackSnapshot := 20, createdAt := 0 }

/-- A first referral through Ann's code (order `oa`), already rewarded. -/
def referralA : Referral :=
  { id := "ra", referrerId := "ref1", codeId := some "c1",
    refereeShopifyCustomerId := some "cust8", refereeEmail := some "bob@example.com",
    refereeFirstName := none, refereeLastName := none, orderId := some "oa",
    workshopProductId := none, workshopProductTitle := none }

/-- A second referral through Ann's code (order `ob`), pending settlement. -/
def referralB : Referral :=
  { id := "rb", referrerId := "ref1", codeId := some "c1",
    refereeShopifyCustomerId := some "cust9", refereeEmail := some "eve@example.com",
    refereeFirstName := none, refereeLastName := none, orderId := some "ob",
    workshopProductId := none, workshopProductTitle := none }

/-- The already settled reward of 30 against order 100. -/
def rewardPaid30 : Reward :=
  { id := "r1", referrerId := "ref1", referralId := some "ra", amount := 30,
    currency := "EUR", status := RewardStatus.PAID, paidAt := some 1,
    workshopProductId := none, workshopProductTitle := none, createdAt := 0 }

/-- A pending reward of 25 against order 100. -/
def rewardPending25 : Reward :=
  { id := "r2", referrerId := "ref1", referralId := some "rb", amount := 25,
    currency := "EUR", status := RewardStatus.PENDING, paidAt := none,
    workshopProductId := none, workshopProductTitle := none, createdAt := 2 }

/-- A pending reward of 20 against order 100. -/
def rewardPending20 : Reward :=
  { id := "r2", referrerId := "ref1", referralId := some "rb", amount := 20,
    currency := "EUR", status := RewardStatus.PENDING, paidAt := none,
    workshopProductId := none, workshopProductTitle := none, createdAt := 2 }

/-- Store with 30 already paid against order 100 and 25 pending. -/
def storeCeil25 : Store :=
  { referrers := [referrerAnn], codes := [codeC1], referrals := [referralA, referralB],
    rewards := [rewardPaid30, rewardPending25], settings := baseSettings }

/-- Store with 30 already paid against order 100 and 20 pending. -/
def storeCeil20 : Store :=
  { referrers := [referrerAnn], codes := [codeC1], referrals := [referralA, referralB],
    rewards := [rewardPaid30, rewardPending20], settings := baseSettings }

/-- A successful capturable transaction. -/
def txCapture : Transaction := { id := "t0", kind := "CAPTURE", status := "SUCCESS" }

/-- A transaction that is neither capturable nor successful. -/
def txRefundFailure : Transaction := { id := "t1", kind := "REFUND", status := "FAILURE" }

/-- Every refund attempt succeeds. -/
def respSuccess : ℕ → AttemptResponse := fun _ => AttemptResponse.success

/-- Every refund attempt is a permanent Shopify user error. -/
def respPermanentError : ℕ → AttemptResponse := fun _ => AttemptResponse.userErrorsOther

/-- Every refund attempt reports the order as temporarily unavailable. -/
def respAlwaysUnavailable : ℕ → AttemptResponse := fun _ => AttemptResponse.userErrorsUnavailable

/-- Settlement environment: order total 100, happy-path refund. -/
def envTotal100 : SettleEnv :=
  { orderTotal := some 100, transactions := some [txCapture], responses := respSuccess, now := 9 }

/-- Settlement environment: order-total lookup returned exactly 0. -/
def envZeroTotal : SettleEnv :=
  { orderTotal := some 0, transactions := some [txCapture], responses := respSuccess, now := 9 }

/-- Settlement environment: refund mutation fails permanently. -/
def envRefundFails : SettleEnv :=
  { orderTotal := some 100, transactions := some [txCapture],
    responses := respPermanentError, now := 9 }

/-- Settlement environment: the order stays temporarily unavailable forever. -/
def envUnavailable : SettleEnv :=
  { orderTotal := some 100, transactions := some [txCapture],
    responses := respAlwaysUnavailable, now := 9 }

/-- A reward already in the terminal `FAILED` state. -/
def rewardFailed : Reward :=
  { id := "r6", referrerId := "ref1", referralId := some "ra", amount := 20,
    currency := "EUR", status := RewardStatus.FAILED, paidAt := none,
    workshopProductId := none, workshopProductTitle := none, createdAt := 0 }

/-- Store holding only the `FAILED` reward. -/
def storeFailedReward : Store :=
  { referrers := [referrerAnn], codes := [codeC1], referrals := [referralA],
    rewards := [rewardFailed], settings := baseSettings }

/-- An existing referral for order `o1` owned by referrer `rA`. -/
def referralO1 : Referral :=
  { id := "old1", referrerId := "rA", codeId := some "cA",
    refereeShopifyCustomerId := some "cust3", refereeEmail := some "joe@example.com",
    refereeFirstName := none, refereeLastName := none, orderId := some "o1",
    workshopProductId := none, workshopProductTitle := none }

/-- Store holding the referral for order `o1`. -/
def storeReferralO1 : Store :=
  { referrers := [], codes := [], referrals := [referralO1], rewards := [],
    settings := baseSettings }

/-- A second record-referral input for the same order but another referrer. -/
def inputO1again : ReferralInput :=
  { referrerId := "rB", codeId := some "cB", refereeShopifyCustomerId := some "cust4",
    refereeEmail := some "kim@example.com", orderId := some "o1" }

/-- Ann's code as it stands before her second purchase: origin order `o1`,
workshop `w1`. -/
def codeC5 : Code :=
  { id := "c5", referrerId := "ref1", code := "DEF-5678", shopifyDiscountId := none,
    usageCount := 0, maxUsage := 0, expiresAt := some 30,
    originOrderId := some "o1", originOrderGid := some "g1",
    workshopProductId := some "w1", workshopProductTitle := some "W1",
    workshopQuantity := 1, discountSnapshot := 1/10, cashbackSnapshot := 20, createdAt := 0 }

/-- Store before Ann's second qualifying purchase. -/
def storeSecondPurchase : Store :=
  { referrers := [referrerAnn], codes := [codeC5], referrals := [], rewards := [],
    settings := baseSettings }

/-- Ann's second purchase event: order `o2`, workshop `w2`, no code used. -/
def payloadSecondPurchase : OrdersPaidPayload :=
  { id := some "o2", admin_graphql_api_id := some "gid2", email := some "ann@example.com",
    currency := some "EUR", discount_codes := [],
    customer := some { id := "cust1", email := some "ann@example.com",
                       first_name := some "Ann", last_name := some "Lee" } }

/-- Webhook environment for the second purchase: workshop `w2` extracted. -/
def envSecondPurchase : WebhookEnv :=
  { workshopProductId := some "w2", workshopProductTitle := some "W2", workshopQuantity := 2,
    newReferrerId := "refNew", newCodeId := "cNew", codeCandidates := fun _ => "ZZZ-9999",
    newReferralId := "relNew", newRewardId := "rwdNew", discountSync := none, now := 10 }

/-- Ann's code after the second purchase refresh, as the code computes it. -/
def codeC5afterRefresh : Code :=
  { codeC5 with
    originOrderId := some "o2", originOrderGid := some "gid2",
    workshopProductId := some "w2", workshopProductTitle := some "W2",
    workshopQuantity := 2, expiresAt := some 40 }

/-- A referee's purchase using Ann's code `ABC-1234` on order `o9`. -/
def payloadRefereeOrder : OrdersPaidPayload :=
  { id := some "o9", admin_graphql_api_id := some "gid9", email := some "bob@example.com",
    currency := some "EUR", discount_codes := [some "ABC-1234"],
    customer := some { id := "cust2", email := some "bob@example.com",
                       first_name := some "Bob", last_name := some "Kay" } }

/-- Store before the referee's order is processed. -/
def storeBeforeReferee : Store :=
  { referrers := [referrerAnn], codes := [codeC1], referrals := [], rewards := [],
    settings := baseSettings }

/-- Webhook environment for the referee's order. -/
def envRefereeOrder : WebhookEnv :=
  { workshopProductId := some "w9", workshopProductTitle := some "W9", workshopQuantity := 1,
    newReferrerId := "ref2", newCodeId := "c2", codeCandidates := fun _ => "QQQ-1111",
    newReferralId := "rel9", newRewardId := "rwd9", discountSync := none, now := 11 }

/-- A second webhook environment (fresh ids) for the duplicate delivery. -/
def envRefereeOrderRetry : WebhookEnv :=
  { workshopProductId := some "w9", workshopProductTitle := some "W9", workshopQuantity := 1,
    newReferrerId := "ref3", newCodeId := "c3", codeCandidates := fun _ => "RRR-2222",
    newReferralId := "rel10", newRewardId := "rwd10", discountSync := none, now := 12 }

/-- A stored referrer whose email will drift. -/
def referrerOldEmail : Referrer :=
  { id := "ref7", shopifyCustomerId := "cust7", email := some "old@example.com",
    firstName := some "Ann", lastName := some "Lee", createdAt := 0, updatedAt := 0 }

/-- Store holding that referrer. -/
def storeOldEmail : Store :=
  { referrers := [referrerOldEmail], codes := [], referrals := [], rewards := [],
    settings := baseSettings }

/-- Incoming payload for the same customer with a null email. -/
def customerNullEmail : CustomerPayload :=
  { id := "cust7", email := none, first_name := some "Ann", last_name := some "Lee" }

/-- Incoming payload for the same customer with a changed email. -/
def customerNewEmail : CustomerPayload :=
  { id := "cust7", email := some "new@example.com", first_name := some "Ann",
    last_name := some "Lee" }

/-- Incoming payload matching the stored contact data exactly. -/
def customerSameEmail : CustomerPayload :=
  { id := "cust7", email := some "old@example.com", first_name := some "Ann",
    last_name := some "Lee" }

/-- Settings patch raising the cashback amount to 50. -/
def patchCashback50 : SettingsPatch := { cashbackAmount := some 50 }

/-! ## Generic lemmas about the store primitives -/

theorem firstWhere_mem {α : Type} (p : α → Prop) [DecidablePred p] (l : List α) (a : α)
    (h : firstWhere p l = some a) : a ∈ l ∧ p a := by
  induction l with
  | nil => simp [firstWhere] at h
  | cons b l ih =>
    simp only [firstWhere] at h
    by_cases hb : p b
    · rw [if_pos hb] at h
      injection h with h
      subst h
      exact ⟨List.mem_cons_self _ _, hb⟩
    · rw [if_neg hb] at h
      obtain ⟨hm, hp⟩ := ih h
      exact ⟨List.mem_cons_of_mem _ hm, hp⟩

theorem firstWhere_eq_none {α : Type} (p : α → Prop) [DecidablePred p] (l : List α)
    (h : firstWhere p l = none) : ∀ a ∈ l, ¬ p a := by
  induction l with
  | nil => intro a ha; simp at ha
  | cons b l ih =>
    simp only [firstWhere] at h
    by_cases hb : p b
    · rw [if_pos hb] at h; exact absurd h (by simp)
    · rw [if_neg hb] at h
      intro a ha
      rcases List.mem_cons.mp ha with rfl | ha
      · exact hb
      · exact ih h a ha

theorem filter_eq_nil_of_firstWhere_none {α : Type} (p : α → Prop) [DecidablePred p]
    (l : List α) (h : firstWhere p l = none) : l.filter (fun a => decide (p a)) = [] := by
  rw [List.filter_eq_nil_iff]
  intro a ha
  simp [firstWhere_eq_none p l h a ha]

theorem firstWhere_map {α : Type} (p : α → Prop) [DecidablePred p] (f : α → α)
    (hf : ∀ a, p (f a) ↔ p a) (l : List α) :
    firstWhere p (l.map f) = (firstWhere p l).map f := by
  induction l with
  | nil => rfl
  | cons b l ih =>
    simp only [List.map_cons, firstWhere]
    by_cases hb : p b
    · rw [if_pos ((hf b).mpr hb), if_pos hb]; rfl
    · rw [if_neg (fun hh => hb ((hf b).mp hh)), if_neg hb]; exact ih

theorem findRewardFull_congr {s s' : Store} (h : s'.rewards = s.rewards) (q : String) :
    findRewardFull s' q = findRewardFull s q := by
  unfold findRewardFull; rw [h]

theorem findReferralByOrderId_congr {s s' : Store} (h : s'.referrals = s.referrals)
    (oid : String) : findReferralByOrderId s' oid = findReferralByOrderId s oid := by
  unfold findReferralByOrderId; rw [h]

theorem findReward_markPaid (s : Store) (q : String) (now : ℕ) :
    findRewardFull (markRewardAsPaid s q now) q =
      (findRewardFull s q).map
        (fun r => { r with status := RewardStatus.PAID, paidAt := some now }) := by
  have hmap := firstWhere_map (fun (r : Reward) => r.id = q)
    (fun r => if r.id = q then { r with status := RewardStatus.PAID, paidAt := some now } else r)
    (fun a => by by_cases h : a.id = q <;> simp [h]) s.rewards
  show firstWhere (fun r => r.id = q) (s.rewards.map (fun r =>
      if r.id = q then { r with status := RewardStatus.PAID, paidAt := some now } else r)) = _
  rw [hmap]
  cases h : firstWhere (fun r => r.id = q) s.rewards with
  | none => unfold findRewardFull; rw [h]; rfl
  | some r =>
    have hp := (firstWhere_mem _ _ _ h).2
    unfold findRewardFull
    rw [h]
    simp [hp]

theorem applyOverrideBackfill_frame (s : Store) (reward : Reward) (ov : Option String) :
    (applyOverrideBackfill s reward ov).rewards = s.rewards ∧
    (applyOverrideBackfill s reward ov).settings = s.settings ∧
    (applyOverrideBackfill s reward ov).referrals = s.referrals := by
  unfold applyOverrideBackfill
  repeat' split
  all_goals exact ⟨rfl, rfl, rfl⟩

/-- Exhaustive classification of one `processRewardRefund` call: exactly one
of the six control-flow exits is taken, with the conditions that guard it and
the full outcome it produces. -/
theorem settle_shape (s : Store) (env : SettleEnv) (rid : String) (ov : Option String) :
    (findRewardFull s rid = none ∧
      processRewardRefund s env rid ov =
        { result := Except.error SettleError.rewardNotFound, store := s, refundCalls := [] }) ∨
    (∃ reward, findRewardFull s rid = some reward ∧ reward.status ≠ RewardStatus.PENDING ∧
      processRewardRefund s env rid ov =
        { result := Except.error SettleError.invalidState, store := s, refundCalls := [] }) ∨
    (∃ reward, findRewardFull s rid = some reward ∧ reward.status = RewardStatus.PENDING ∧
      (resolveOrderGid s reward ov = none ∨ resolveOrderGid s reward ov = some "") ∧
      processRewardRefund s env rid ov =
        { result := Except.error SettleError.noOrderAvailable, store := s, refundCalls := [] }) ∨
    (∃ reward g m, findRewardFull s rid = some reward ∧ reward.status = RewardStatus.PENDING ∧
      resolveOrderGid s reward ov = some g ∧ g ≠ "" ∧
      maxRefundAllowedOf env.orderTotal
        (applyOverrideBackfill s reward ov).settings.maxRefundPercentage = some m ∧
      getTotalRefundedForCode (applyOverrideBackfill s reward ov) g + reward.amount > m ∧
      processRewardRefund s env rid ov =
        { result := Except.error (SettleError.refundCeilingExceeded
            (max 0 (m - getTotalRefundedForCode (applyOverrideBackfill s reward ov) g))),
          store := applyOverrideBackfill s reward ov, refundCalls := [] }) ∨
    (∃ reward g e, findRewardFull s rid = some reward ∧ reward.status = RewardStatus.PENDING ∧
      resolveOrderGid s reward ov = some g ∧ g ≠ "" ∧
      (maxRefundAllowedOf env.orderTotal
          (applyOverrideBackfill s reward ov).settings.maxRefundPercentage = none ∨
        ∃ m, maxRefundAllowedOf env.orderTotal
            (applyOverrideBackfill s reward ov).settings.maxRefundPercentage = some m ∧
          ¬ (getTotalRefundedForCode (applyOverrideBackfill s reward ov) g + reward.amount > m)) ∧
      refundCallResult env.responses = Except.error e ∧
      processRewardRefund s env rid ov =
        { result := Except.error (SettleError.refundFailed e),
          store := applyOverrideBackfill s reward ov,
          refundCalls := [buildRefundVariables g reward.amount
            (some "Remboursement manuel - Parrainage")
            (getOrderTransactionParentId env.transactions)] }) ∨
    (∃ reward g, findRewardFull s rid = some reward ∧ reward.status = RewardStatus.PENDING ∧
      resolveOrderGid s reward ov = some g ∧ g ≠ "" ∧
      (maxRefundAllowedOf env.orderTotal
          (applyOverrideBackfill s reward ov).settings.maxRefundPercentage = none ∨
        ∃ m, maxRefundAllowedOf env.orderTotal
            (applyOverrideBackfill s reward ov).settings.maxRefundPercentage = some m ∧
          ¬ (getTotalRefundedForCode (applyOverrideBackfill s reward ov) g + reward.amount > m)) ∧
      refundCallResult env.responses = Except.ok () ∧
      processRewardRefund s env rid ov =
        { result := Except.ok
            { rewardId := reward.id,
              totalRefunded := getTotalRefundedForCode (applyOverrideBackfill s reward ov) g +
                reward.amount,
              maxRefundAllowed := maxRefundAllowedOf env.orderTotal
                (applyOverrideBackfill s reward ov).settings.maxRefundPercentage },
          store := markRewardAsPaid (applyOverrideBackfill s reward ov) reward.id env.now,
          refundCalls := [buildRefundVariables g reward.amount
            (some "Remboursement manuel - Parrainage")
            (getOrderTransactionParentId env.transactions)] }) := by
  cases hr : findRewardFull s rid with
  | none =>
    left
    refine ⟨rfl, ?_⟩
    unfold processRewardRefund
    simp only [hr]
  | some reward =>
    by_cases hst : reward.status = RewardStatus.PENDING
    · have hred : processRewardRefund s env rid ov = settleAfterStatus s env reward ov := by
        unfold processRewardRefund
        simp only [hr]
        rw [if_neg (by simp [hst])]
      cases hg : resolveOrderGid s reward ov with
      | none =>
        right; right; left
        refine ⟨reward, rfl, hst, Or.inl hg, ?_⟩
        rw [hred]; unfold settleAfterStatus; simp only [hg]
      | some g =>
        by_cases hge : g = ""
        · right; right; left
          refine ⟨reward, rfl, hst, Or.inr (by rw [← hge]; exact hg), ?_⟩
          rw [hred]; unfold settleAfterStatus; simp only [hg]; rw [if_pos hge]
        · have hred2 : processRewardRefund s env rid ov =
              settleWithGid (applyOverrideBackfill s reward ov) env reward g := by
            rw [hred]; unfold settleAfterStatus; simp only [hg]; rw [if_neg hge]
          cases hm : maxRefundAllowedOf env.orderTotal
              (applyOverrideBackfill s reward ov).settings.maxRefundPercentage with
          | some m =>
            by_cases hgt : getTotalRefundedForCode (applyOverrideBackfill s reward ov) g +
                reward.amount > m
            · right; right; right; left
              refine ⟨reward, g, m, rfl, hst, hg, hge, hm, hgt, ?_⟩
              rw [hred2]; unfold settleWithGid; simp only [hm]; rw [if_pos hgt]
            · have hred3 : processRewardRefund s env rid ov =
                  settleRefund (applyOverrideBackfill s reward ov) env reward g
                    (getTotalRefundedForCode (applyOverrideBackfill s reward ov) g) (some m) := by
                rw [hred2]; unfold settleWithGid; simp only [hm]; rw [if_neg hgt]
              cases hc : refundCallResult env.responses with
              | error e =>
                right; right; right; right; left
                refine ⟨reward, g, e, rfl, hst, hg, hge, Or.inr ⟨m, hm, hgt⟩, rfl, ?_⟩
                rw [hred3]; unfold settleRefund createReferralRefund; simp only [hc]
              | ok u =>
                cases u
                right; right; right; right; right
                refine ⟨reward, g, rfl, hst, hg, hge, Or.inr ⟨m, hm, hgt⟩, rfl, ?_⟩
                rw [hred3]; unfold settleRefund createReferralRefund; simp only [hc, hm]
          | none =>
            have hred3 : processRewardRefund s env rid ov =
                settleRefund (applyOverrideBackfill s reward ov) env reward g
                  (getTotalRefundedForCode (applyOverrideBackfill s reward ov) g) none := by
              rw [hred2]; unfold settleWithGid; simp only [hm]
            cases hc : refundCallResult env.responses with
            | error e =>
              right; right; right; right; left
              refine ⟨reward, g, e, rfl, hst, hg, hge, Or.inl hm, rfl, ?_⟩
              rw [hred3]; unfold settleRefund createReferralRefund; simp only [hc]
            | ok u =>
              cases u
              right; right; right; right; right
              refine ⟨reward, g, rfl, hst, hg, hge, Or.inl hm, rfl, ?_⟩
              rw [hred3]; unfold settleRefund createReferralRefund; simp only [hc, hm]
    · right; left
      refine ⟨reward, rfl, hst, ?_⟩
      unfold processRewardRefund
      simp only [hr]
      rw [if_pos hst]

/-- Forward run of a settlement that reaches the refund call and succeeds. -/
theorem processRewardRefund_run_ok (s : Store) (env : SettleEnv) (rid : String)
    (ov : Option String) (reward : Reward) (g : String)
    (hr : findRewardFull s rid = some reward)
    (hst : reward.status = RewardStatus.PENDING)
    (hg : resolveOrderGid s reward ov = some g)
    (hge : g ≠ "")
    (hperm : maxRefundAllowedOf env.orderTotal
        (applyOverrideBackfill s reward ov).settings.maxRefundPercentage = none ∨
      ∃ m, maxRefundAllowedOf env.orderTotal
          (applyOverrideBackfill s reward ov).settings.maxRefundPercentage = some m ∧
        ¬ (getTotalRefundedForCode (applyOverrideBackfill s reward ov) g + reward.amount > m))
    (hok : refundCallResult env.responses = Except.ok ()) :
    (processRewardRefund s env rid ov).result = Except.ok
      { rewardId := reward.id,
        totalRefunded := getTotalRefundedForCode (applyOverrideBackfill s reward ov) g +
          reward.amount,
        maxRefundAllowed := maxRefundAllowedOf env.orderTotal
          (applyOverrideBackfill s reward ov).settings.maxRefundPercentage } := by
  have hred : processRewardRefund s env rid ov = settleAfterStatus s env reward ov := by
    unfold processRewardRefund
    simp only [hr]
    rw [if_neg (by simp [hst])]
  rw [hred]
  unfold settleAfterStatus
  simp only [hg]
  rw [if_neg hge]
  unfold settleWithGid
  rcases hperm with hnone | ⟨m, hm, hle⟩
  · simp only [hnone]
    unfold settleRefund createReferralRefund
    simp only [hok]
  · simp only [hm]
    rw [if_neg hle]
    unfold settleRefund createReferralRefund
    simp only [hok]

/-- Forward run of a settlement whose external refund call fails. -/
theorem processRewardRefund_run_error (s : Store) (env : SettleEnv) (rid : String)
    (ov : Option String) (reward : Reward) (g : String) (e : RefundCallError)
    (hr : findRewardFull s rid = some reward)
    (hst : reward.status = RewardStatus.PENDING)
    (hg : resolveOrderGid s reward ov = some g)
    (hge : g ≠ "")
    (hperm : maxRefundAllowedOf env.orderTotal
        (applyOverrideBackfill s reward ov).settings.maxRefundPercentage = none ∨
      ∃ m, maxRefundAllowedOf env.orderTotal
          (applyOverrideBackfill s reward ov).settings.maxRefundPercentage = some m ∧
        ¬ (getTotalRefundedForCode (applyOverrideBackfill s reward ov) g + reward.amount > m))
    (he : refundCallResult env.responses = Except.error e) :
    (processRewardRefund s env rid ov).result =
      Except.error (SettleError.refundFailed e) := by
  have hred : processRewardRefund s env rid ov = settleAfterStatus s env reward ov := by
    unfold processRewardRefund
    simp only [hr]
    rw [if_neg (by simp [hst])]
  rw [hred]
  unfold settleAfterStatus
  simp only [hg]
  rw [if_neg hge]
  unfold settleWithGid
  rcases hperm with hnone | ⟨m, hm, hle⟩
  · simp only [hnone]
    unfold settleRefund createReferralRefund
    simp only [he]
  · simp only [hm]
    rw [if_neg hle]
    unfold settleRefund createReferralRefund
    simp only [he]

/-- C2: settlement is single-use — when a first `processRewardRefund` call on
a reward succeeded (the reward is now `PAID`), a second call for the same
reward id fails with the invalid-state error, issues no external refund call,
and leaves the store unchanged. -/
theorem settle_single_use (s : Store) (env env2 : SettleEnv) (rid : String)
    (ov ov2 : Option String) (res : ProcessRewardRefundResult)
    (h : (processRewardRefund s env rid ov).result = Except.ok res) :
    (processRewardRefund (processRewardRefund s env rid ov).store env2 rid ov2).result =
      Except.error SettleError.invalidState ∧
    (processRewardRefund (processRewardRefund s env rid ov).store env2 rid ov2).refundCalls =
      [] ∧
    (processRewardRefund (processRewardRefund s env rid ov).store env2 rid ov2).store =
      (processRewardRefund s env rid ov).store := by
  rcases settle_shape s env rid ov with
    ⟨_, hout⟩ | ⟨r1, _, _, hout⟩ | ⟨r1, _, _, _, hout⟩ |
    ⟨r1, g1, m, _, _, _, _, _, _, hout⟩ | ⟨r1, g1, e, _, _, _, _, _, _, hout⟩ |
    ⟨reward, g, hfind, hst, hg, hge, hperm, hok, hout⟩
  · rw [hout] at h; simp at h
  · rw [hout] at h; simp at h
  · rw [hout] at h; simp at h
  · rw [hout] at h; simp at h
  · rw [hout] at h; simp at h
  · have hid : reward.id = rid := (firstWhere_mem _ _ _ hfind).2
    have hbf : (applyOverrideBackfill s reward ov).rewards = s.rewards :=
      (applyOverrideBackfill_frame s reward ov).1
    have hfind1 : findRewardFull (applyOverrideBackfill s reward ov) rid = some reward := by
      rw [findRewardFull_congr hbf]; exact hfind
    have hfound2 : findRewardFull (processRewardRefund s env rid ov).store rid =
        some { reward with status := RewardStatus.PAID, paidAt := some env.now } := by
      rw [hout]
      show findRewardFull
          (markRewardAsPaid (applyOverrideBackfill s reward ov) reward.id env.now) rid = _
      conv_lhs => rw [hid]
      rw [findReward_markPaid, hfind1]
      rfl
    generalize hSt : (processRewardRefund s env rid ov).store = st at hfound2 ⊢
    unfold processRewardRefund
    simp only [hfound2]
    rw [if_pos (by simp)]
    exact ⟨rfl, rfl, rfl⟩

/-- C2 witness: a concrete successful settlement (reward of 20 against order
100 with 30 already paid and ceiling 50) followed by a second settle call on
the same reward id. -/
theorem settle_single_use_witness :
    (processRewardRefund (processRewardRefund storeCeil20 envTotal100 "r2" none).store
        envTotal100 "r2" none).result = Except.error SettleError.invalidState ∧
    (processRewardRefund (processRewardRefund storeCeil20 envTotal100 "r2" none).store
        envTotal100 "r2" none).refundCalls = [] := by
  have hok : (processRewardRefund storeCeil20 envTotal100 "r2" none).result =
      Except.ok
        { rewardId := "r2",
          totalRefunded := getTotalRefundedForCode
            (applyOverrideBackfill storeCeil20 rewardPending20 none) ORDER_GID +
            rewardPending20.amount,
          maxRefundAllowed := maxRefundAllowedOf envTotal100.orderTotal
            (applyOverrideBackfill storeCeil20 rewardPending20
              none).settings.maxRefundPercentage } :=
    processRewardRefund_run_ok storeCeil20 envTotal100 "r2" none rewardPending20 ORDER_GID
      rfl rfl rfl (by decide)
      (Or.inr ⟨50, by
          rw [show maxRefundAllowedOf envTotal100.orderTotal
            (applyOverrideBackfill storeCeil20 rewardPending20 none).settings.maxRefundPercentage =
            some ((100 : ℚ) * (1/2)) from rfl]
          constructor
          · norm_num
          · rw [show getTotalRefundedForCode
              (applyOverrideBackfill storeCeil20 rewardPending20 none) ORDER_GID =
              List.sum [(30 : ℚ)] from rfl,
              show rewardPending20.amount = (20 : ℚ) from rfl]
            norm_num⟩)
      rfl
  have h := settle_single_use storeCeil20 envTotal100 envTotal100 "r2" none none _ hok
  exact ⟨h.1, h.2.1⟩

/-- C3: when the external refund call fails — a permanent error thrown with no
retry, or (at most three) attempts exhausted retrying only on the
"temporarily unavailable" condition — the settle call surfaces the error and
the reward row is left exactly as it was (still `PENDING`). -/
theorem settle_refund_failure_leaves_pending (s : Store) (env : SettleEnv) (rid : String)
    (ov : Option String) :
    (∀ e, (processRewardRefund s env rid ov).result =
        Except.error (SettleError.refundFailed e) →
      (processRewardRefund s env rid ov).store.rewards = s.rewards ∧
      ∃ reward, findRewardFull s rid = some reward ∧
        reward.status = RewardStatus.PENDING ∧
        findRewardFull (processRewardRefund s env rid ov).store rid = some reward) ∧
    (env.responses 0 = AttemptResponse.userErrorsOther →
      refundCallResult env.responses = Except.error RefundCallError.shopifyUserErrors) ∧
    (env.responses 0 = AttemptResponse.graphqlErrors →
      refundCallResult env.responses = Except.error RefundCallError.graphqlRequestFailed) ∧
    ((∀ i, i < maxRetries → env.responses i = AttemptResponse.userErrorsUnavailable) →
      refundCallResult env.responses = Except.error RefundCallError.shopifyUserErrors) := by
  refine ⟨?_, ?_, ?_, ?_⟩
  · intro e h
    rcases settle_shape s env rid ov with
      ⟨_, hout⟩ | ⟨r1, _, _, hout⟩ | ⟨r1, _, _, _, hout⟩ |
      ⟨r1, g1, m, _, _, _, _, _, _, hout⟩ | ⟨r1, g1, e1, hfind, hstp, _, _, _, _, hout⟩ |
      ⟨r1, g1, _, _, _, _, _, _, hout⟩
    · rw [hout] at h; simp at h
    · rw [hout] at h; simp at h
    · rw [hout] at h; simp at h
    · rw [hout] at h; simp at h
    · have hbf : (applyOverrideBackfill s r1 ov).rewards = s.rewards :=
        (applyOverrideBackfill_frame s r1 ov).1
      refine ⟨by rw [hout]; exact hbf, r1, hfind, hstp, ?_⟩
      rw [hout]
      show findRewardFull (applyOverrideBackfill s r1 ov) rid = some r1
      rw [findRewardFull_congr hbf]
      exact hfind
    · rw [hout] at h; simp at h
  · intro h0
    unfold refundCallResult maxRetries
    show refundLoopGo env.responses 0 (2 + 1) = _
    unfold refundLoopGo
    rw [h0]
  · intro h0
    unfold refundCallResult maxRetries
    show refundLoopGo env.responses 0 (2 + 1) = _
    unfold refundLoopGo
    rw [h0]
  · intro hall
    have h0 := hall 0 (by norm_num [maxRetries])
    have h1 := hall 1 (by norm_num [maxRetries])
    have h2 := hall 2 (by norm_num [maxRetries])
    unfold refundCallResult maxRetries
    show refundLoopGo env.responses 0 (2 + 1) = _
    unfold refundLoopGo
    rw [h0]
    simp only [maxRetries]
    rw [if_pos (by norm_num)]
    unfold refundLoopGo
    rw [h1]
    simp only [maxRetries]
    rw [if_pos (by norm_num)]
    unfold refundLoopGo
    rw [h2]
    simp only [maxRetries]
    rw [if_neg (by norm_num)]

/-- C3 witness: a permanently failing refund leaves the concrete pending
reward untouched, and the loop-level facts at concrete response streams. -/
theorem settle_refund_failure_witness :
    (processRewardRefund storeCeil20 envRefundFails "r2" none).store.rewards =
      storeCeil20.rewards ∧
    refundCallResult envRefundFails.responses =
      Except.error RefundCallError.shopifyUserErrors ∧
    refundCallResult envUnavailable.responses =
      Except.error RefundCallError.shopifyUserErrors ∧
    findRewardFull (processRewardRefund storeCeil20 envRefundFails "r2" none).store "r2" =
      some rewardPending20 := by
  have h := settle_refund_failure_leaves_pending storeCeil20 envRefundFails "r2" none
  have hperm := h.2.1 rfl
  have herr : (processRewardRefund storeCeil20 envRefundFails "r2" none).result =
      Except.error (SettleError.refundFailed RefundCallError.shopifyUserErrors) :=
    processRewardRefund_run_error storeCeil20 envRefundFails "r2" none rewardPending20
      ORDER_GID RefundCallError.shopifyUserErrors rfl rfl rfl (by decide)
      (Or.inr ⟨50, by
          rw [show maxRefundAllowedOf envRefundFails.orderTotal
            (applyOverrideBackfill storeCeil20 rewardPending20
              none).settings.maxRefundPercentage = some ((100 : ℚ) * (1/2)) from rfl]
          constructor
          · norm_num
          · rw [show getTotalRefundedForCode
              (applyOverrideBackfill storeCeil20 rewardPending20 none) ORDER_GID =
              List.sum [(30 : ℚ)] from rfl,
              show rewardPending20.amount = (20 : ℚ) from rfl]
            norm_num⟩)
      hperm
    |>.symm ▸ rfl
  obtain ⟨hrew, reward, hfind, hstp, hfind2⟩ := h.1 RefundCallError.shopifyUserErrors herr
  have hid : reward = rewardPending20 := by
    have h2 : some reward = some rewardPending20 :=
      hfind.symm.trans (rfl : findRewardFull storeCeil20 "r2" = some rewardPending20)
    injection h2
  refine ⟨hrew, hperm, ?_, ?_⟩
  · exact (settle_refund_failure_leaves_pending storeCeil20 envUnavailable "r2" none).2.2.2
      (fun i _ => rfl)
  · rw [← hid]; exact hfind2

/-- C10: a known order total of exactly 0 is treated as JS-falsy, so no
ceiling is computed (`maxRefundAllowed` is `null`) and no settlement is ever
rejected for exceeding the ceiling — the refund is permitted for every
pending amount, just as if the total were unavailable. -/
theorem zero_total_no_ceiling (s : Store) (env : SettleEnv) (rid : String)
    (ov : Option String) (h0 : env.orderTotal = some 0) :
    (∀ q, (processRewardRefund s env rid ov).result ≠
      Except.error (SettleError.refundCeilingExceeded q)) ∧
    (∀ res, (processRewardRefund s env rid ov).result = Except.ok res →
      res.maxRefundAllowed = none) ∧
    (∀ f, maxRefundAllowedOf env.orderTotal f = none) := by
  have hmv : ∀ f, maxRefundAllowedOf env.orderTotal f = none := by
    intro f
    unfold maxRefundAllowedOf
    simp [h0]
  refine ⟨?_, ?_, hmv⟩
  · intro q hq
    rcases settle_shape s env rid ov with
      ⟨_, hout⟩ | ⟨r1, _, _, hout⟩ | ⟨r1, _, _, _, hout⟩ |
      ⟨r1, g1, m, _, _, _, _, hm, _, hout⟩ | ⟨r1, g1, e1, _, _, _, _, _, _, hout⟩ |
      ⟨r1, g1, _, _, _, _, _, _, hout⟩
    · rw [hout] at hq; simp at hq
    · rw [hout] at hq; simp at hq
    · rw [hout] at hq; simp at hq
    · rw [hmv] at hm; exact absurd hm (by simp)
    · rw [hout] at hq; simp at hq
    · rw [hout] at hq; simp at hq
  · intro res hres
    rcases settle_shape s env rid ov with
      ⟨_, hout⟩ | ⟨r1, _, _, hout⟩ | ⟨r1, _, _, _, hout⟩ |
      ⟨r1, g1, m, _, _, _, _, _, _, hout⟩ | ⟨r1, g1, e1, _, _, _, _, _, _, hout⟩ |
      ⟨r1, g1, _, _, _, _, _, _, hout⟩
    · rw [hout] at hres; simp at hres
    · rw [hout] at hres; simp at hres
    · rw [hout] at hres; simp at hres
    · rw [hout] at hres; simp at hres
    · rw [hout] at hres; simp at hres
    · rw [hout] at hres
      have h2 : Except.ok
          ({ rewardId := r1.id,
             totalRefunded := getTotalRefundedForCode (applyOverrideBackfill s r1 ov) g1 +
               r1.amount,
             maxRefundAllowed := maxRefundAllowedOf env.orderTotal
               (applyOverrideBackfill s r1 ov).settings.maxRefundPercentage } :
            ProcessRewardRefundResult) = Except.ok res := hres
      injection h2 with h3
      rw [← h3, hmv]

/-- C10 witness: settling a pending reward of 25 with 30 already paid while
the order-total lookup returned exactly 0 succeeds with no ceiling. -/
theorem zero_total_no_ceiling_witness :
    (∀ q, (processRewardRefund storeCeil25 envZeroTotal "r2" none).result ≠
      Except.error (SettleError.refundCeilingExceeded q)) ∧
    (∀ f, maxRefundAllowedOf envZeroTotal.orderTotal f = none) ∧
    (processRewardRefund storeCeil25 envZeroTotal "r2" none).result =
      Except.ok { rewardId := "r2", totalRefunded := 55, maxRefundAllowed := none } := by
  have h := zero_total_no_ceiling storeCeil25 envZeroTotal "r2" none rfl
  refine ⟨h.1, h.2.2, ?_⟩
  have hok := processRewardRefund_run_ok storeCeil25 envZeroTotal "r2" none rewardPending25
    ORDER_GID rfl rfl rfl (by decide) (Or.inl (h.2.2 _)) rfl
  rw [hok, h.2.2]
  rw [show getTotalRefundedForCode (applyOverrideBackfill storeCeil25 rewardPending25 none)
      ORDER_GID = List.sum [(30 : ℚ)] from rfl,
    show rewardPending25.amount = (25 : ℚ) from rfl,
    show rewardPending25.id = "r2" from rfl]
  norm_num

/-- C1 (amended): for a settlement of a `PENDING` reward with a resolved
order and a known nonzero order total `t`, the ceiling is
`t * maxRefundPercentage`; the call is rejected with `RefundCeilingExceeded`
exactly when `alreadyPaid + reward.amount` exceeds it, reporting
`max 0 (ceiling - alreadyPaid)` and leaving the reward rows untouched;
otherwise no ceiling rejection happens and a successful settlement reports
`alreadyPaid + reward.amount` against that ceiling. -/
theorem ceiling_enforcement (s : Store) (env : SettleEnv) (rid : String) (ov : Option String)
    (reward : Reward) (g : String) (t : ℚ)
    (hr : findRewardFull s rid = some reward)
    (hst : reward.status = RewardStatus.PENDING)
    (hg : resolveOrderGid s reward ov = some g)
    (hge : g ≠ "")
    (ht : env.orderTotal = some t)
    (ht0 : t ≠ 0) :
    (getTotalRefundedForCode (applyOverrideBackfill s reward ov) g + reward.amount >
        t * (applyOverrideBackfill s reward ov).settings.maxRefundPercentage →
      (processRewardRefund s env rid ov).result =
        Except.error (SettleError.refundCeilingExceeded
          (max 0 (t * (applyOverrideBackfill s reward ov).settings.maxRefundPercentage -
            getTotalRefundedForCode (applyOverrideBackfill s reward ov) g))) ∧
      (processRewardRefund s env rid ov).store.rewards = s.rewards ∧
      (processRewardRefund s env rid ov).refundCalls = []) ∧
    (¬ (getTotalRefundedForCode (applyOverrideBackfill s reward ov) g + reward.amount >
        t * (applyOverrideBackfill s reward ov).settings.maxRefundPercentage) →
      (∀ q, (processRewardRefund s env rid ov).result ≠
        Except.error (SettleError.refundCeilingExceeded q)) ∧
      (∀ res, (processRewardRefund s env rid ov).result = Except.ok res →
        res = { rewardId := reward.id,
                totalRefunded := getTotalRefundedForCode (applyOverrideBackfill s reward ov) g +
                  reward.amount,
                maxRefundAllowed :=
                  some (t * (applyOverrideBackfill s reward ov).settings.maxRefundPercentage) })) := by
  have hmv : maxRefundAllowedOf env.orderTotal
      (applyOverrideBackfill s reward ov).settings.maxRefundPercentage =
      some (t * (applyOverrideBackfill s reward ov).settings.maxRefundPercentage) := by
    unfold maxRefundAllowedOf
    simp only [ht]
    rw [if_neg ht0]
  rcases settle_shape s env rid ov with
    ⟨hnone, _⟩ | ⟨r1, hf1, hs1, _⟩ | ⟨r1, hf1, _, hgor, _⟩ |
    ⟨r1, g1, m, hf1, hs1, hg1, hge1, hm1, hgt1, hout⟩ |
    ⟨r1, g1, e1, hf1, hs1, hg1, hge1, hperm, hcall, hout⟩ |
    ⟨r1, g1, hf1, hs1, hg1, hge1, hperm, hcall, hout⟩
  · rw [hr] at hnone; exact absurd hnone (by simp)
  · rw [hr] at hf1
    injection hf1 with hf1
    subst hf1
    exact absurd hst hs1
  · rw [hr] at hf1
    injection hf1 with hf1
    subst hf1
    rcases hgor with hgn | hgn <;> rw [hg] at hgn
    · exact absurd hgn (by simp)
    · injection hgn with hgn
      exact absurd hgn hge
  · rw [hr] at hf1
    injection hf1 with hf1
    subst hf1
    rw [hg] at hg1
    injection hg1 with hg1
    subst hg1
    rw [hmv] at hm1
    injection hm1 with hm1
    subst hm1
    constructor
    · intro _
      rw [hout]
      exact ⟨rfl, (applyOverrideBackfill_frame s reward ov).1, rfl⟩
    · intro hle
      exact absurd hgt1 hle
  · rw [hr] at hf1
    injection hf1 with hf1
    subst hf1
    rw [hg] at hg1
    injection hg1 with hg1
    subst hg1
    constructor
    · intro hgt
      rcases hperm with hpn | ⟨m, hm, hnle⟩
      · rw [hmv] at hpn; exact absurd hpn (by simp)
      · rw [hmv] at hm
        injection hm with hm
        subst hm
        exact absurd hgt hnle
    · intro _
      constructor
      · intro q hq
        rw [hout] at hq
        simp at hq
      · intro res hres
        rw [hout] at hres
        simp at hres
  · rw [hr] at hf1
    injection hf1 with hf1
    subst hf1
    rw [hg] at hg1
    injection hg1 with hg1
    subst hg1
    constructor
    · intro hgt
      rcases hperm with hpn | ⟨m, hm, hnle⟩
      · rw [hmv] at hpn; exact absurd hpn (by simp)
      · rw [hmv] at hm
        injection hm with hm
        subst hm
        exact absurd hgt hnle
    · intro _
      constructor
      · intro q hq
        rw [hout] at hq
        simp at hq
      · intro res hres
        rw [hout] at hres
        have h2 : Except.ok
            ({ rewardId := reward.id,
               totalRefunded := getTotalRefundedForCode (applyOverrideBackfill s reward ov) g +
                 reward.amount,
               maxRefundAllowed := maxRefundAllowedOf env.orderTotal
                 (applyOverrideBackfill s reward ov).settings.maxRefundPercentage } :
              ProcessRewardRefundResult) = Except.ok res := hres
        injection h2 with h3
        rw [← h3, hmv]

/-- C1 counterexample: with a known order total of exactly 0 (so the
claim's ceiling `0 × maxRefundFraction = 0` is exceeded by the pending 25
with 30 already paid), the settlement is not rejected — it succeeds with no
ceiling, because the code treats the total 0 as falsy. -/
theorem ceiling_claim_zero_total_counterexample :
    envZeroTotal.orderTotal = some 0 ∧
    storeCeil25.settings.maxRefundPercentage = 1/2 ∧
    getTotalRefundedForCode storeCeil25 ORDER_GID + rewardPending25.amount >
      0 * storeCeil25.settings.maxRefundPercentage ∧
    (processRewardRefund storeCeil25 envZeroTotal "r2" none).result =
      Except.ok { rewardId := "r2", totalRefunded := 55, maxRefundAllowed := none } := by
  refine ⟨rfl, rfl, ?_, ?_⟩
  · rw [show getTotalRefundedForCode storeCeil25 ORDER_GID = List.sum [(30 : ℚ)] from rfl,
      show rewardPending25.amount = (25 : ℚ) from rfl,
      show storeCeil25.settings.maxRefundPercentage = ((1 : ℚ)/2) from rfl]
    norm_num
  · have h0 : ∀ f, maxRefundAllowedOf envZeroTotal.orderTotal f = none := fun _ => rfl
    have hok := processRewardRefund_run_ok storeCeil25 envZeroTotal "r2" none rewardPending25
      ORDER_GID rfl rfl rfl (by decide) (Or.inl (h0 _)) rfl
    rw [hok, h0]
    rw [show getTotalRefundedForCode (applyOverrideBackfill storeCeil25 rewardPending25 none)
        ORDER_GID = List.sum [(30 : ℚ)] from rfl,
      show rewardPending25.amount = (25 : ℚ) from rfl,
      show rewardPending25.id = "r2" from rfl]
    norm_num

/-- C1 witness: order total 100, `maxRefundFraction` 1/2, one `PAID` reward
of 30 — settling 25 fails reporting 20 of headroom, settling 20 succeeds and
brings the total paid to 50. -/
theorem ceiling_enforcement_witness :
    (processRewardRefund storeCeil25 envTotal100 "r2" none).result =
      Except.error (SettleError.refundCeilingExceeded 20) ∧
    (∀ q, (processRewardRefund storeCeil20 envTotal100 "r2" none).result ≠
      Except.error (SettleError.refundCeilingExceeded q)) ∧
    (processRewardRefund storeCeil20 envTotal100 "r2" none).result =
      Except.ok { rewardId := "r2", totalRefunded := 50, maxRefundAllowed := some 50 } := by
  have hA := (ceiling_enforcement storeCeil25 envTotal100 "r2" none rewardPending25 ORDER_GID
      100 rfl rfl rfl (by decide) rfl (by norm_num)).1 (by
    rw [show getTotalRefundedForCode (applyOverrideBackfill storeCeil25 rewardPending25 none)
        ORDER_GID = List.sum [(30 : ℚ)] from rfl,
      show rewardPending25.amount = (25 : ℚ) from rfl,
      show (applyOverrideBackfill storeCeil25 rewardPending25
        none).settings.maxRefundPercentage = ((1 : ℚ)/2) from rfl]
    norm_num)
  have hB := (ceiling_enforcement storeCeil20 envTotal100 "r2" none rewardPending20 ORDER_GID
      100 rfl rfl rfl (by decide) rfl (by norm_num)).2 (by
    rw [show getTotalRefundedForCode (applyOverrideBackfill storeCeil20 rewardPending20 none)
        ORDER_GID = List.sum [(30 : ℚ)] from rfl,
      show rewardPending20.amount = (20 : ℚ) from rfl,
      show (applyOverrideBackfill storeCeil20 rewardPending20
        none).settings.maxRefundPercentage = ((1 : ℚ)/2) from rfl]
    norm_num)
  refine ⟨?_, hB.1, ?_⟩
  · refine hA.1.trans ?_
    rw [show getTotalRefundedForCode (applyOverrideBackfill storeCeil25 rewardPending25 none)
        ORDER_GID = List.sum [(30 : ℚ)] from rfl,
      show (applyOverrideBackfill storeCeil25 rewardPending25
        none).settings.maxRefundPercentage = ((1 : ℚ)/2) from rfl]
    norm_num
  · have hok := processRewardRefund_run_ok storeCeil20 envTotal100 "r2" none rewardPending20
      ORDER_GID rfl rfl rfl (by decide)
      (Or.inr ⟨50, by
          rw [show maxRefundAllowedOf envTotal100.orderTotal
            (applyOverrideBackfill storeCeil20 rewardPending20 none).settings.maxRefundPercentage =
            some ((100 : ℚ) * (1/2)) from rfl]
          constructor
          · norm_num
          · rw [show getTotalRefundedForCode
              (applyOverrideBackfill storeCeil20 rewardPending20 none) ORDER_GID =
              List.sum [(30 : ℚ)] from rfl,
              show rewardPending20.amount = (20 : ℚ) from rfl]
            norm_num⟩)
      rfl
    rw [hok]
    rw [show maxRefundAllowedOf envTotal100.orderTotal
        (applyOverrideBackfill storeCeil20 rewardPending20 none).settings.maxRefundPercentage =
        some ((100 : ℚ) * (1/2)) from rfl,
      show getTotalRefundedForCode (applyOverrideBackfill storeCeil20 rewardPending20 none)
        ORDER_GID = List.sum [(30 : ℚ)] from rfl,
      show rewardPending20.amount = (20 : ℚ) from rfl,
      show rewardPending20.id = "r2" from rfl]
    norm_num

/-- C6 counterexample: `markRewardAsPaid` applied to a reward already in the
terminal `FAILED` state succeeds and rewrites it to `PAID` with a fresh
`paidAt` — the write is not conditional on the status being `PENDING`. -/
theorem markRewardAsPaid_unconditional_counterexample :
    rewardFailed.status = RewardStatus.FAILED ∧
    findRewardFull storeFailedReward "r6" = some rewardFailed ∧
    findRewardFull (markRewardAsPaid storeFailedReward "r6" 5) "r6" =
      some { rewardFailed with status := RewardStatus.PAID, paidAt := some 5 } :=
  ⟨rfl, rfl, rfl⟩

/-- C6 (amended): the write that moves a reward to `PAID` is an unconditional
update keyed on the reward id alone: it sets `status := PAID` and a fresh
`paidAt` whatever the current status (also for `PAID` or `FAILED` rows),
leaves every other row unchanged, and inserts or deletes nothing.  The
only-from-`PENDING` guard lives in `processRewardRefund`'s status pre-check,
not in this write. -/
theorem markRewardAsPaid_unconditional (s : Store) (rid : String) (now : ℕ) (r : Reward)
    (hr : r ∈ s.rewards) :
    (r.id = rid →
      { r with status := RewardStatus.PAID, paidAt := some now } ∈
        (markRewardAsPaid s rid now).rewards) ∧
    (r.id ≠ rid → r ∈ (markRewardAsPaid s rid now).rewards) ∧
    (markRewardAsPaid s rid now).rewards.length = s.rewards.length := by
  refine ⟨?_, ?_, ?_⟩
  · intro hid
    have := List.mem_map_of_mem
      (fun x => if x.id = rid then { x with status := RewardStatus.PAID, paidAt := some now }
        else x) hr
    dsimp only at this
    rw [if_pos hid] at this
    exact this
  · intro hid
    have := List.mem_map_of_mem
      (fun x => if x.id = rid then { x with status := RewardStatus.PAID, paidAt := some now }
        else x) hr
    dsimp only at this
    rw [if_neg hid] at this
    exact this
  · exact List.length_map _ _

/-- C6 witness: the unconditional write at a concrete store holding one
`FAILED` reward. -/
theorem markRewardAsPaid_unconditional_witness :
    { rewardFailed with status := RewardStatus.PAID, paidAt := some 5 } ∈
      (markRewardAsPaid storeFailedReward "r6" 5).rewards ∧
    (markRewardAsPaid storeFailedReward "r6" 5).rewards.length =
      storeFailedReward.rewards.length := by
  have h := markRewardAsPaid_unconditional storeFailedReward "r6" 5 rewardFailed
    (by decide)
  exact ⟨h.1 rfl, h.2.2⟩

/-- C9 counterexample: an order whose only transaction is a failed refund
(neither capturable nor successful) — `getOrderTransactionParentId` still
returns its id, so `createReferralRefund` targets that transaction instead
of the store-credit fallback the claim requires. -/
theorem refund_fallback_counterexample :
    (¬ isValidTransaction txRefundFailure) ∧
    getOrderTransactionParentId (some [txRefundFailure]) = some "t1" ∧
    (createReferralRefund "gid://shopify/Order/100" 10 none (some [txRefundFailure])
        respSuccess).1 =
      { note := DEFAULT_REFUND_NOTE,
        orderId := "gid://shopify/Order/100",
        transactions :=
          [{ orderId := "gid://shopify/Order/100",
             amount := 10,
             kind := "REFUND",
             parentId := some "t1",
             gateway := none }] } :=
  ⟨by decide, rfl, rfl⟩

/-- C9 (amended): the refund targets the first successful capturable
(`CAPTURE`/`SALE` + `SUCCESS`) transaction when one exists; when none exists
but the transaction list is non-empty, it targets the first listed
transaction (whatever its state); the generic store-credit fallback is used
exactly when the transaction lookup produced no id at all — the query failed
or the list was empty.  The retry loop's outcome is independent of which
target was chosen. -/
theorem refund_target_selection :
    (getOrderTransactionParentId none = none) ∧
    (getOrderTransactionParentId (some []) = none) ∧
    (∀ ts t, firstWhere isValidTransaction ts = some t →
      getOrderTransactionParentId (some ts) = some t.id) ∧
    (∀ t0 ts, firstWhere isValidTransaction (t0 :: ts) = none →
      getOrderTransactionParentId (some (t0 :: ts)) = some t0.id) ∧
    (∀ g a note resp rs, getOrderTransactionParentId resp = none →
      (createReferralRefund g a note resp rs).1 = storeCreditVariables g a note) ∧
    (∀ g a note resp rs pid, getOrderTransactionParentId resp = some pid →
      (createReferralRefund g a note resp rs).1 = parentTransactionVariables g a note pid) ∧
    (∀ g a note resp rs, (createReferralRefund g a note resp rs).2 = refundCallResult rs) := by
  refine ⟨rfl, rfl, ?_, ?_, ?_, ?_, fun _ _ _ _ _ => rfl⟩
  · intro ts t hft
    unfold getOrderTransactionParentId
    simp only [hft]
  · intro t0 ts hft
    unfold getOrderTransactionParentId
    simp only [hft]
    rfl
  · intro g a note resp rs hpid
    unfold createReferralRefund buildRefundVariables
    simp only [hpid]
  · intro g a note resp rs pid hpid
    unfold createReferralRefund buildRefundVariables
    simp only [hpid]

/-- C9 witness: a successful capturable transaction is targeted directly;
an empty transaction list and a failed lookup both fall back to the
store-credit gateway input. -/
theorem refund_target_selection_witness :
    getOrderTransactionParentId (some [txRefundFailure, txCapture]) = some "t0" ∧
    (createReferralRefund "g" 10 none (some []) respSuccess).1 =
      storeCreditVariables "g" 10 none ∧
    (createReferralRefund "g" 10 none none respSuccess).1 =
      storeCreditVariables "g" 10 none ∧
    (storeCreditVariables "g" 10 none).transactions =
      [{ orderId := "g",
         amount := 10,
         kind := "REFUND",
         parentId := none,
         gateway := some "store-credit" }] := by
  have h := refund_target_selection
  refine ⟨?_, ?_, ?_, rfl⟩
  · exact h.2.2.1 [txRefundFailure, txCapture] txCapture (by
      show firstWhere isValidTransaction [txRefundFailure, txCapture] = some txCapture
      rfl)
  · exact h.2.2.2.2.1 "g" 10 none (some []) respSuccess rfl
  · exact h.2.2.2.2.1 "g" 10 none none respSuccess rfl

/-- C7 counterexample: a stored referrer with email `old@example.com` and an
incoming payload whose email is null — the fields differ, yet the update
keeps the stored email (because of the `?? existing` fallback) instead of
matching the payload, while still bumping `updatedAt`. -/
theorem referrer_refresh_counterexample :
    referrerOldEmail.email = some "old@example.com" ∧
    customerNullEmail.email = none ∧
    referrerOldEmail.email ≠ customerNullEmail.email ∧
    (getOrCreateReferrerFromCustomer storeOldEmail "n" customerNullEmail 5).2.email =
      some "old@example.com" ∧
    (getOrCreateReferrerFromCustomer storeOldEmail "n" customerNullEmail 5).2.updatedAt = 5 :=
  ⟨rfl, rfl, by decide, rfl, rfl⟩

/-- C7 (amended): for an existing referrer, `getOrCreateReferrerFromCustomer`
compares email/first/last to the incoming payload; when none differ it
returns the stored record and store unchanged (so `updatedAt` is untouched);
when any differ it issues one update whose fields take the incoming value
only when that value is non-null (`customer.x ?? existing.x` — a null payload
field never overwrites stored data) and whose `updatedAt` is bumped. -/
theorem referrer_contact_refresh (s : Store) (nid : String) (cust : CustomerPayload)
    (existing : Referrer) (now : ℕ)
    (hfind : firstWhere (fun r => r.shopifyCustomerId = cust.id) s.referrers = some existing) :
    (¬ referrerNeedsUpdate existing cust →
      getOrCreateReferrerFromCustomer s nid cust now = (s, existing)) ∧
    (referrerNeedsUpdate existing cust →
      (getOrCreateReferrerFromCustomer s nid cust now).2 =
        refreshedReferrer existing cust now ∧
      refreshedReferrer existing cust now ∈
        (getOrCreateReferrerFromCustomer s nid cust now).1.referrers ∧
      (refreshedReferrer existing cust now).updatedAt = now ∧
      (∀ e, cust.email = some e → (refreshedReferrer existing cust now).email = some e) ∧
      (cust.email = none → (refreshedReferrer existing cust now).email = existing.email) ∧
      (∀ e, cust.first_name = some e →
        (refreshedReferrer existing cust now).firstName = some e) ∧
      (cust.first_name = none →
        (refreshedReferrer existing cust now).firstName = existing.firstName)) := by
  constructor
  · intro hno
    unfold getOrCreateReferrerFromCustomer
    simp only [hfind]
    rw [if_neg hno]
  · intro hyes
    have hred : getOrCreateReferrerFromCustomer s nid cust now =
        ({ s with referrers := s.referrers.map (fun r =>
            if r.id = existing.id then refreshedReferrer existing cust now else r) },
          refreshedReferrer existing cust now) := by
      unfold getOrCreateReferrerFromCustomer
      simp only [hfind]
      rw [if_pos hyes]
    rw [hred]
    refine ⟨rfl, ?_, rfl, ?_, ?_, ?_, ?_⟩
    · have hmem := (firstWhere_mem _ _ _ hfind).1
      have := List.mem_map_of_mem
        (fun r => if r.id = existing.id then refreshedReferrer existing cust now else r) hmem
      dsimp only at this
      rw [if_pos rfl] at this
      exact this
    · intro e he
      unfold refreshedReferrer jsOr
      simp only [he]
    · intro he
      unfold refreshedReferrer jsOr
      simp only [he]
    · intro e he
      unfold refreshedReferrer jsOr
      simp only [he]
    · intro he
      unfold refreshedReferrer jsOr
      simp only [he]

/-- C7 witness: an incoming non-null email that differs is applied (with
`updatedAt` bumped); an identical payload leaves the record and store
untouched. -/
theorem referrer_contact_refresh_witness :
    (getOrCreateReferrerFromCustomer storeOldEmail "n" customerNewEmail 7).2.email =
      some "new@example.com" ∧
    (getOrCreateReferrerFromCustomer storeOldEmail "n" customerNewEmail 7).2.updatedAt = 7 ∧
    getOrCreateReferrerFromCustomer storeOldEmail "n" customerSameEmail 7 =
      (storeOldEmail, referrerOldEmail) := by
  have hdiff := (referrer_contact_refresh storeOldEmail "n" customerNewEmail referrerOldEmail 7
    rfl).2 (by decide)
  have hsame := (referrer_contact_refresh storeOldEmail "n" customerSameEmail referrerOldEmail 7
    rfl).1 (by decide)
  refine ⟨?_, ?_, hsame⟩
  · rw [hdiff.1]
    exact hdiff.2.2.2.1 "new@example.com" rfl
  · rw [hdiff.1]
    exact hdiff.2.2.1

/-- C8: settings updates are never retroactive — a reward created from the
settings in force carries `amount = settings.cashbackAmount` fixed at
creation; a later `updateReferralSettings` rewrites only the settings
singleton (the reward row, with its old amount, is still stored verbatim);
and a code minted after the update snapshots the new discount/cashback
values. -/
theorem settings_snapshot_immutability (s : Store) (p : SettingsPatch)
    (rwdId cId refId : String) (relId : Option String) (cur : String)
    (w1 w2 : Option String) (cands : ℕ → String)
    (oOid oGid pId pTitle : Option String) (q now now2 : ℕ) :
    (createPendingReward s rwdId refId relId s.settings cur w1 w2 now).2.amount =
      s.settings.cashbackAmount ∧
    (updateReferralSettings
        (createPendingReward s rwdId refId relId s.settings cur w1 w2 now).1 p).1.rewards =
      (createPendingReward s rwdId refId relId s.settings cur w1 w2 now).1.rewards ∧
    (createPendingReward s rwdId refId relId s.settings cur w1 w2 now).2 ∈
      (updateReferralSettings
        (createPendingReward s rwdId refId relId s.settings cur w1 w2 now).1 p).1.rewards ∧
    (updateReferralSettings
        (createPendingReward s rwdId refId relId s.settings cur w1 w2 now).1 p).1.settings =
      (updateReferralSettings
        (createPendingReward s rwdId refId relId s.settings cur w1 w2 now).1 p).2 ∧
    (∀ s3 c, createCodeForReferrer
        (updateReferralSettings
          (createPendingReward s rwdId refId relId s.settings cur w1 w2 now).1 p).1
        cands cId now2 refId
        (updateReferralSettings
          (createPendingReward s rwdId refId relId s.settings cur w1 w2 now).1 p).1.settings
        oOid oGid pId pTitle q = some (s3, c) →
      c.cashbackSnapshot =
        (updateReferralSettings
          (createPendingReward s rwdId refId relId s.settings cur w1 w2 now).1 p).2.cashbackAmount ∧
      c.discountSnapshot =
        (updateReferralSettings
          (createPendingReward s rwdId refId relId s.settings cur w1 w2 now).1 p).2.discountPercentage) := by
  refine ⟨rfl, rfl, ?_, rfl, ?_⟩
  · show (createPendingReward s rwdId refId relId s.settings cur w1 w2 now).2 ∈
      s.rewards ++ [(createPendingReward s rwdId refId relId s.settings cur w1 w2 now).2]
    exact List.mem_append_right _ (List.mem_singleton.mpr rfl)
  · intro s3 c hc
    unfold createCodeForReferrer at hc
    cases hp : pickFreeCode
        (updateReferralSettings
          (createPendingReward s rwdId refId relId s.settings cur w1 w2 now).1 p).1 cands with
    | none => rw [hp] at hc; exact absurd hc (by simp)
    | some v =>
      rw [hp] at hc
      dsimp only at hc
      injection hc with hc2
      have hcsnd := congrArg Prod.snd hc2
      dsimp only at hcsnd
      constructor
      · rw [← hcsnd]
        rfl
      · rw [← hcsnd]
        rfl

/-- C8 witness: a reward created while `cashbackAmount = 20` keeps amount 20
after the settings are raised to 50, and a code minted after the update
snapshots 50. -/
theorem settings_snapshot_witness :
    (createPendingReward storeCeil20 "rwdX" "ref1" none storeCeil20.settings "EUR" none none
      3).2.amount = 20 ∧
    (updateReferralSettings (createPendingReward storeCeil20 "rwdX" "ref1" none
      storeCeil20.settings "EUR" none none 3).1 patchCashback50).2.cashbackAmount = 50 ∧
    (∀ s3 c, createCodeForReferrer
        (updateReferralSettings (createPendingReward storeCeil20 "rwdX" "ref1" none
          storeCeil20.settings "EUR" none none 3).1 patchCashback50).1
        (fun _ => "AAA-1111") "cX" 4 "ref1"
        (updateReferralSettings (createPendingReward storeCeil20 "rwdX" "ref1" none
          storeCeil20.settings "EUR" none none 3).1 patchCashback50).1.settings
        none none none none 1 = some (s3, c) →
      c.cashbackSnapshot = 50) ∧
    (createCodeForReferrer
        (updateReferralSettings (createPendingReward storeCeil20 "rwdX" "ref1" none
          storeCeil20.settings "EUR" none none 3).1 patchCashback50).1
        (fun _ => "AAA-1111") "cX" 4 "ref1"
        (updateReferralSettings (createPendingReward storeCeil20 "rwdX" "ref1" none
          storeCeil20.settings "EUR" none none 3).1 patchCashback50).1.settings
        none none none none 1).isSome = true := by
  have h := settings_snapshot_immutability storeCeil20 patchCashback50 "rwdX" "cX" "ref1" none
    "EUR" none none (fun _ => "AAA-1111") none none none none 1 3 4
  refine ⟨h.1.trans rfl, rfl, ?_, rfl⟩
  intro s3 c hc
  exact (h.2.2.2.2 s3 c hc).1.trans rfl

theorem getOrCreate_frame (s : Store) (nid : String) (c : CustomerPayload) (now : ℕ) :
    (getOrCreateReferrerFromCustomer s nid c now).1.codes = s.codes ∧
    (getOrCreateReferrerFromCustomer s nid c now).1.referrals = s.referrals ∧
    (getOrCreateReferrerFromCustomer s nid c now).1.rewards = s.rewards ∧
    (getOrCreateReferrerFromCustomer s nid c now).1.settings = s.settings := by
  unfold getOrCreateReferrerFromCustomer
  repeat' split
  all_goals exact ⟨rfl, rfl, rfl, rfl⟩

theorem createCodeForReferrer_frame (s : Store) (cands : ℕ → String) (nid : String)
    (now : ℕ) (rid : String) (settings : ReferralSettings)
    (a b c2 d : Option String) (q : ℕ) (s1 : Store) (code : Code)
    (h : createCodeForReferrer s cands nid now rid settings a b c2 d q = some (s1, code)) :
    s1.referrals = s.referrals ∧ s1.rewards = s.rewards ∧ s1.settings = s.settings := by
  unfold createCodeForReferrer at h
  cases hp : pickFreeCode s cands with
  | none => rw [hp] at h; exact absurd h (by simp)
  | some v =>
    rw [hp] at h
    dsimp only at h
    injection h with h2
    have hfst := congrArg Prod.fst h2
    dsimp only at hfst
    rw [← hfst]
    exact ⟨rfl, rfl, rfl⟩

theorem webhookCodeStage_frame (s : Store) (settings : ReferralSettings) (env : WebhookEnv)
    (p : OrdersPaidPayload) (oid : String) (referrer : Referrer) (s2 : Store)
    (h : webhookCodeStage s settings env p oid referrer = some s2) :
    s2.referrals = s.referrals ∧ s2.rewards = s.rewards ∧ s2.settings = s.settings := by
  unfold webhookCodeStage at h
  cases hj : jsOr (findCodeByOriginOrderId s oid) (latestCodeForReferrer s referrer.id) with
  | none =>
    simp only [hj] at h
    cases hc : createCodeForReferrer s env.codeCandidates env.newCodeId env.now referrer.id
        settings (some oid) p.admin_graphql_api_id env.workshopProductId
        env.workshopProductTitle env.workshopQuantity with
    | none => rw [hc] at h; exact absurd h (by simp)
    | some pair =>
      obtain ⟨s1, code⟩ := pair
      rw [hc] at h
      dsimp only at h
      obtain ⟨hr1, hw1, hs1⟩ := createCodeForReferrer_frame s env.codeCandidates env.newCodeId
        env.now referrer.id settings (some oid) p.admin_graphql_api_id env.workshopProductId
        env.workshopProductTitle env.workshopQuantity s1 code hc
      cases hd : env.discountSync with
      | some did =>
        rw [hd] at h
        injection h with h2
        rw [← h2]
        exact ⟨hr1, hw1, hs1⟩
      | none =>
        rw [hd] at h
        injection h with h2
        rw [← h2]
        exact ⟨hr1, hw1, hs1⟩
  | some old =>
    simp only [hj] at h
    cases hd : env.discountSync with
    | some did =>
      rw [hd] at h
      injection h with h2
      rw [← h2]
      exact ⟨rfl, rfl, rfl⟩
    | none =>
      rw [hd] at h
      injection h with h2
      rw [← h2]
      exact ⟨rfl, rfl, rfl⟩

/-- `createReferral` with a truthy order id and no existing referral for it:
plain insertion of the new row. -/
theorem createReferral_fresh (s : Store) (nid : String) (inp : ReferralInput) (oid : String)
    (hin : inp.orderId = some oid)
    (hnone : findReferralByOrderId s oid = none) :
    createReferral s nid inp =
      ({ s with referrals := s.referrals ++ [mkReferral nid inp] }, mkReferral nid inp) := by
  unfold createReferral
  simp only [hin]
  by_cases ho : oid = ""
  · rw [if_pos ho]
  · rw [if_neg ho]
    have hnone2 : firstWhere (fun r => r.orderId = some oid) s.referrals = none := hnone
    simp only [hnone2]

theorem webhookReferralStage_cases (s : Store) (settings : ReferralSettings)
    (env : WebhookEnv) (p : OrdersPaidPayload) (cust : CustomerPayload) (oid : String) :
    webhookReferralStage s settings env p cust oid = s ∨
    (findReferralByOrderId s oid = none ∧ ∃ nr rwd,
      (webhookReferralStage s settings env p cust oid).referrals = s.referrals ++ [nr] ∧
      nr.orderId = some oid ∧
      (webhookReferralStage s settings env p cust oid).rewards = s.rewards ++ [rwd]) := by
  cases hn : normalizeCode (p.discount_codes.head?.bind id) with
  | none =>
    left
    simp only [webhookReferralStage, hn]
  | some usedDiscount =>
    cases hf : findCodeByValue s usedDiscount with
    | none =>
      left
      simp only [webhookReferralStage, hn, hf]
    | some usedCodeRecord =>
      cases hr : findReferralByOrderId s oid with
      | some r =>
        left
        simp only [webhookReferralStage, hn, hf, hr]
      | none =>
        right
        refine ⟨rfl, ?_⟩
        simp only [webhookReferralStage, hn, hf, hr]
        rw [createReferral_fresh s env.newReferralId
          { referrerId := usedCodeRecord.referrerId, codeId := some usedCodeRecord.id,
            refereeShopifyCustomerId := some cust.id, refereeEmail := jsOr p.email cust.email,
            refereeFirstName := cust.first_name, refereeLastName := cust.last_name,
            orderId := some oid, workshopProductId := env.workshopProductId,
            workshopProductTitle := env.workshopProductTitle } oid rfl hr]
        exact ⟨mkReferral env.newReferralId _, _, rfl, rfl, rfl⟩

theorem webhookRun_cases (s : Store) (env : WebhookEnv) (p : OrdersPaidPayload) (oid : String)
    (cust : CustomerPayload) (hid : p.id = some oid) (hcust : p.customer = some cust) :
    ((webhookOrdersPaid s env p).referrals = s.referrals ∧
     (webhookOrdersPaid s env p).rewards = s.rewards) ∨
    (findReferralByOrderId s oid = none ∧ ∃ nr rwd,
      (webhookOrdersPaid s env p).referrals = s.referrals ++ [nr] ∧
      nr.orderId = some oid ∧
      (webhookOrdersPaid s env p).rewards = s.rewards ++ [rwd]) := by
  unfold webhookOrdersPaid
  simp only [hid, hcust]
  by_cases hg : oid = "" ∨ cust.id = ""
  · rw [if_pos hg]; left; exact ⟨rfl, rfl⟩
  · rw [if_neg hg]
    obtain ⟨hcA, hrA, hwA, hsA⟩ := getOrCreate_frame s env.newReferrerId cust env.now
    cases hcs : webhookCodeStage (getOrCreateReferrerFromCustomer s env.newReferrerId cust
        env.now).1 s.settings env p oid
        (getOrCreateReferrerFromCustomer s env.newReferrerId cust env.now).2 with
    | none =>
      simp only [hcs]
      left
      exact ⟨hrA, hwA⟩
    | some sB =>
      simp only [hcs]
      obtain ⟨hrB, hwB, hsB⟩ := webhookCodeStage_frame _ _ _ _ _ _ _ hcs
      rcases webhookReferralStage_cases sB s.settings env p cust oid with heq |
        ⟨hnone, nr, rwd, hra, hno, hrw⟩
      · left
        rw [heq]
        exact ⟨hrB.trans hrA, hwB.trans hwA⟩
      · right
        refine ⟨(findReferralByOrderId_congr (hrB.trans hrA) oid).symm.trans hnone,
          nr, rwd, ?_, hno, ?_⟩
        · rw [hra, hrB, hrA]
        · rw [hrw, hwB, hwA]

theorem countReferralsForOrder_le_one (s : Store) (env : WebhookEnv) (p : OrdersPaidPayload)
    (oid : String) (cust : CustomerPayload) (hid : p.id = some oid)
    (hcust : p.customer = some cust) :
    countReferralsForOrder (webhookOrdersPaid s env p) oid ≤
      max (countReferralsForOrder s oid) 1 := by
  rcases webhookRun_cases s env p oid cust hid hcust with ⟨hra, _⟩ |
    ⟨hnone, nr, rwd, hra, hno, _⟩
  · unfold countReferralsForOrder
    rw [hra]
    exact le_max_left _ _
  · have hnone2 : firstWhere (fun r => r.orderId = some oid) s.referrals = none := hnone
    unfold countReferralsForOrder
    rw [hra, List.filter_append,
      filter_eq_nil_of_firstWhere_none (fun r => r.orderId = some oid) s.referrals hnone2]
    simp [hno]

/-- Rewards grow by at most one row per webhook run. -/
theorem webhookRun_rewards_le (s : Store) (env : WebhookEnv) (p : OrdersPaidPayload)
    (oid : String) (cust : CustomerPayload) (hid : p.id = some oid)
    (hcust : p.customer = some cust) :
    (webhookOrdersPaid s env p).rewards.length ≤ s.rewards.length + 1 := by
  rcases webhookRun_cases s env p oid cust hid hcust with ⟨_, hw⟩ |
    ⟨_, nr, rwd, _, _, hw⟩
  · rw [hw]; exact Nat.le_succ _
  · rw [hw]; simp

/-- C4 counterexample: `createReferral` on an order id that already has a
referral is not a no-op returning the record unchanged — the upsert's update
path overwrites the row with the new input (here a different referrer). -/
theorem record_referral_not_noop_counterexample :
    findReferralByOrderId storeReferralO1 "o1" = some referralO1 ∧
    referralO1.referrerId = "rA" ∧
    (createReferral storeReferralO1 "n1" inputO1again).2.referrerId = "rB" ∧
    (createReferral storeReferralO1 "n1" inputO1again).2.id = referralO1.id ∧
    (createReferral storeReferralO1 "n1" inputO1again).2 ≠ referralO1 ∧
    (createReferral storeReferralO1 "n1" inputO1again).1.referrals ≠
      storeReferralO1.referrals :=
  ⟨rfl, rfl, rfl, rfl, by decide, by decide⟩

/-- C4 (amended): record-referral on an existing source order id never
inserts a second row — it updates the existing row in place (same row id,
fields overwritten with the non-null input fields) rather than returning it
unchanged; and the purchase-event pipeline is idempotent per order id: the
handler short-circuits when a referral for the order exists, so processing
the same payload twice yields at most one Referral and at most one Reward for
that order, the second run changing neither table. -/
theorem referral_recording_idempotent (s : Store) (env env2 : WebhookEnv)
    (p : OrdersPaidPayload) (oid : String) (cust : CustomerPayload)
    (hid : p.id = some oid) (hoid : oid ≠ "") (hcust : p.customer = some cust) :
    (∀ (s' : Store) (nid : String) (inp : ReferralInput) (old : Referral),
      inp.orderId = some oid → findReferralByOrderId s' oid = some old →
      (createReferral s' nid inp).1.referrals.length = s'.referrals.length ∧
      (createReferral s' nid inp).2.id = old.id) ∧
    (∀ r, findReferralByOrderId s oid = some r →
      (webhookOrdersPaid s env p).referrals = s.referrals ∧
      (webhookOrdersPaid s env p).rewards = s.rewards) ∧
    (findReferralByOrderId s oid = none →
      countReferralsForOrder (webhookOrdersPaid (webhookOrdersPaid s env p) env2 p) oid ≤ 1 ∧
      (webhookOrdersPaid s env p).rewards.length ≤ s.rewards.length + 1 ∧
      (∀ r, findReferralByOrderId (webhookOrdersPaid s env p) oid = some r →
        (webhookOrdersPaid (webhookOrdersPaid s env p) env2 p).referrals =
          (webhookOrdersPaid s env p).referrals ∧
        (webhookOrdersPaid (webhookOrdersPaid s env p) env2 p).rewards =
          (webhookOrdersPaid s env p).rewards)) := by
  refine ⟨?_, ?_, ?_⟩
  · intro s' nid inp old hin hfound
    have hfound2 : firstWhere (fun r => r.orderId = some oid) s'.referrals = some old := hfound
    unfold createReferral
    simp only [hin]
    rw [if_neg hoid]
    simp only [hfound2]
    exact ⟨List.length_map _ _, rfl⟩
  · intro r hr
    rcases webhookRun_cases s env p oid cust hid hcust with ⟨hra, hw⟩ |
      ⟨hnone, _, _, _, _, _⟩
    · exact ⟨hra, hw⟩
    · rw [hnone] at hr; exact absurd hr (by simp)
  · intro h0
    have hc0 : countReferralsForOrder s oid = 0 := by
      have h02 : firstWhere (fun r => r.orderId = some oid) s.referrals = none := h0
      unfold countReferralsForOrder
      rw [filter_eq_nil_of_firstWhere_none (fun r => r.orderId = some oid) s.referrals h02]
      rfl
    have h1 := countReferralsForOrder_le_one s env p oid cust hid hcust
    have h2 := countReferralsForOrder_le_one (webhookOrdersPaid s env p) env2 p oid cust
      hid hcust
    refine ⟨by omega, webhookRun_rewards_le s env p oid cust hid hcust, ?_⟩
    intro r hr1
    rcases webhookRun_cases (webhookOrdersPaid s env p) env2 p oid cust hid hcust with
      ⟨hra, hw⟩ | ⟨hnone, _, _, _, _, _⟩
    · exact ⟨hra, hw⟩
    · rw [hnone] at hr1; exact absurd hr1 (by simp)

/-- C4 witness: a referee's order `o9` using Ann's code, delivered twice —
the first run records exactly one referral and one reward for `o9`; the
second run leaves referrals and rewards untouched. -/
theorem referral_recording_idempotent_witness :
    countReferralsForOrder (webhookOrdersPaid (webhookOrdersPaid storeBeforeReferee
      envRefereeOrder payloadRefereeOrder) envRefereeOrderRetry payloadRefereeOrder) "o9" ≤ 1 ∧
    countReferralsForOrder (webhookOrdersPaid storeBeforeReferee envRefereeOrder
      payloadRefereeOrder) "o9" = 1 ∧
    (webhookOrdersPaid (webhookOrdersPaid storeBeforeReferee envRefereeOrder
      payloadRefereeOrder) envRefereeOrderRetry payloadRefereeOrder).referrals =
      (webhookOrdersPaid storeBeforeReferee envRefereeOrder payloadRefereeOrder).referrals ∧
    (webhookOrdersPaid (webhookOrdersPaid storeBeforeReferee envRefereeOrder
      payloadRefereeOrder) envRefereeOrderRetry payloadRefereeOrder).rewards =
      (webhookOrdersPaid storeBeforeReferee envRefereeOrder payloadRefereeOrder).rewards ∧
    (webhookOrdersPaid storeBeforeReferee envRefereeOrder payloadRefereeOrder).rewards.length
      = 1 := by
  have h := referral_recording_idempotent storeBeforeReferee envRefereeOrder
    envRefereeOrderRetry payloadRefereeOrder "o9"
    { id := "cust2", email := some "bob@example.com", first_name := some "Bob",
      last_name := some "Kay" } rfl (by decide) rfl
  have h3 := h.2.2 rfl
  have h3c := h3.2.2 (mkReferral "rel9"
    { referrerId := "ref1", codeId := some "c1", refereeShopifyCustomerId := some "cust2",
      refereeEmail := some "bob@example.com", refereeFirstName := some "Bob",
      refereeLastName := some "Kay", orderId := some "o9", workshopProductId := some "w9",
      workshopProductTitle := some "W9" }) rfl
  exact ⟨h3.1, rfl, h3c.1, h3c.2, rfl⟩

theorem jsOr_some {α : Type} (x : α) (b : Option α) : jsOr (some x) b = some x := rfl

theorem jsOr_none {α : Type} (b : Option α) : jsOr (none : Option α) b = b := rfl

/-- The latest-code fold returns a list element or the accumulator. -/
theorem foldlLatest_mem (l : List Code) : ∀ (acc : Option Code) (c : Code),
    l.foldl (fun acc c => match acc with
      | none => some c
      | some b => if c.createdAt > b.createdAt then some c else some b) acc = some c →
    c ∈ l ∨ acc = some c := by
  induction l with
  | nil =>
    intro acc c h
    exact Or.inr h
  | cons a t ih =>
    intro acc c h
    rw [List.foldl_cons] at h
    rcases ih _ c h with hmem | hacc
    · exact Or.inl (List.mem_cons_of_mem a hmem)
    · cases acc with
      | none =>
        dsimp only at hacc
        injection hacc with hac
        exact Or.inl (by rw [← hac]; exact List.mem_cons_self a t)
      | some b =>
        dsimp only at hacc
        by_cases hgt : a.createdAt > b.createdAt
        · rw [if_pos hgt] at hacc
          injection hacc with hac
          exact Or.inl (by rw [← hac]; exact List.mem_cons_self a t)
        · rw [if_neg hgt] at hacc
          exact Or.inr hacc

/-- A code found by `latestCodeForReferrer` is one of the store's codes. -/
theorem latestCodeForReferrer_mem (s : Store) (rid : String) (c : Code)
    (h : latestCodeForReferrer s rid = some c) : c ∈ s.codes := by
  unfold latestCodeForReferrer at h
  rcases foldlLatest_mem _ _ c h with hmem | hacc
  · exact List.mem_of_mem_filter hmem
  · exact Option.noConfusion hacc

/-- C5 (amended): when the purchase handler finds an existing code for the
referrer (by origin order id, else the referrer's latest code), no new code
is minted: the row with the same id is rewritten in place with expiresAt,
maxUsage and the discount/cashback snapshots refreshed to the settings in
effect at the new purchase — but the origin order id is overwritten
unconditionally with the new order, and the order gid and workshop metadata
are overwritten whenever the new event carries them (the new purchase wins,
not the first). -/
theorem code_reuse_refresh (s : Store) (settings : ReferralSettings) (env : WebhookEnv)
    (p : OrdersPaidPayload) (oid : String) (referrer : Referrer) (old : Code)
    (hfind : jsOr (findCodeByOriginOrderId s oid)
      (latestCodeForReferrer s referrer.id) = some old) :
    ∃ s1, webhookCodeStage s settings env p oid referrer = some s1 ∧
      s1.codes.length = s.codes.length ∧
      ∃ c, c ∈ s1.codes ∧ c.id = old.id ∧
        c.expiresAt = computeExpiryDate settings.codeValidityDays env.now ∧
        c.maxUsage = settings.maxUsagePerCode ∧
        c.discountSnapshot = settings.discountPercentage ∧
        c.cashbackSnapshot = settings.cashbackAmount ∧
        c.originOrderId = some oid ∧
        c.originOrderGid = jsOr p.admin_graphql_api_id old.originOrderGid ∧
        c.workshopProductId = jsOr env.workshopProductId old.workshopProductId ∧
        c.workshopProductTitle = jsOr env.workshopProductTitle old.workshopProductTitle := by
  have hmem : old ∈ s.codes := by
    cases hff : findCodeByOriginOrderId s oid with
    | some x =>
      rw [hff, jsOr_some] at hfind
      injection hfind with hx
      have hff2 : firstWhere (fun c => c.originOrderId = some oid) s.codes = some x := hff
      rw [← hx]
      exact (firstWhere_mem _ _ x hff2).1
    | none =>
      rw [hff, jsOr_none] at hfind
      exact latestCodeForReferrer_mem s referrer.id old hfind
  unfold webhookCodeStage
  rw [hfind]
  cases hds : env.discountSync with
  | none =>
    refine ⟨_, rfl, ?_, ?_⟩
    · simp
    · refine ⟨refreshCodeRecord old settings env p oid, ?_, rfl, rfl, rfl, rfl, rfl, rfl,
        rfl, rfl, rfl⟩
      refine List.mem_map.mpr ⟨old, hmem, ?_⟩
      dsimp only
      rw [if_pos rfl]
  | some did =>
    refine ⟨_, rfl, ?_, ?_⟩
    · simp [linkShopifyDiscountId]
    · refine ⟨{ refreshCodeRecord old settings env p oid with shopifyDiscountId := some did },
        ?_, rfl, rfl, rfl, rfl, rfl, rfl, rfl, rfl, rfl⟩
      refine List.mem_map.mpr ⟨refreshCodeRecord old settings env p oid,
        List.mem_map.mpr ⟨old, hmem, ?_⟩, ?_⟩
      · dsimp only
        rw [if_pos rfl]
      · dsimp only
        rw [if_pos (show (refreshCodeRecord old settings env p oid).id = old.id from rfl)]

/-- C5 counterexample: Ann's code already carries origin order `o1` and
workshop `w1`; the repeat-purchase refresh still overwrites the origin order
id and the workshop metadata with the second purchase's values. -/
theorem code_reuse_metadata_counterexample :
    codeC5.originOrderId = some "o1" ∧
    codeC5.workshopProductId = some "w1" ∧
    codeC5.workshopProductTitle = some "W1" ∧
    findCodeById (webhookOrdersPaid storeSecondPurchase envSecondPurchase
      payloadSecondPurchase) "c5" = some codeC5afterRefresh ∧
    codeC5afterRefresh.originOrderId = some "o2" ∧
    codeC5afterRefresh.workshopProductId = some "w2" ∧
    codeC5afterRefresh.workshopProductTitle = some "W2" :=
  ⟨rfl, rfl, rfl, rfl, rfl, rfl, rfl⟩

/-- C5 witness: Ann's second qualifying purchase (order `o2`) reuses code
`c5` in place: same row id, refreshed expiry/max-usage/snapshots, origin and
workshop metadata taken from the second purchase. -/
theorem code_reuse_refresh_witness :
    ∃ s1, webhookCodeStage storeSecondPurchase baseSettings envSecondPurchase
      payloadSecondPurchase "o2" referrerAnn = some s1 ∧
      s1.codes.length = storeSecondPurchase.codes.length ∧
      ∃ c, c ∈ s1.codes ∧ c.id = codeC5.id ∧
        c.expiresAt = computeExpiryDate baseSettings.codeValidityDays envSecondPurchase.now ∧
        c.maxUsage = baseSettings.maxUsagePerCode ∧
        c.discountSnapshot = baseSettings.discountPercentage ∧
        c.cashbackSnapshot = baseSettings.cashbackAmount ∧
        c.originOrderId = some "o2" ∧
        c.originOrderGid = jsOr payloadSecondPurchase.admin_graphql_api_id
          codeC5.originOrderGid ∧
        c.workshopProductId = jsOr envSecondPurchase.workshopProductId
          codeC5.workshopProductId ∧
        c.workshopProductTitle = jsOr envSecondPurchase.workshopProductTitle
          codeC5.workshopProductTitle :=
  code_reuse_refresh storeSecondPurchase baseSettings envSecondPurchase
    payloadSecondPurchase "o2" referrerAnn codeC5 rfl
